import Mathlib

/-! # PPM thermal policy (mt_ppm_policy_thermal.c)

A shallow embedding of the thermal power-budget policy of the MediaTek PPM
driver, `drivers/misc/mediatek/base/power/ppm_v1/src/mt_ppm_policy_thermal.c`.

* C `unsigned int` values are natural numbers, C `int` values are integers;
  the conversions the source performs are written with `to_uint`.
* The static `thermal_policy` object and the calls the code makes to the rest
  of the kernel are explicit: a `ppm_state` carries the policy record and the
  sequence of calls issued so far (`ppm_event`).
* Functions of the PPM core that this file only calls (`ppm_get_power_table`,
  `ppm_main_freq_to_idx`, `ppm_find_pwr_idx`, ...) are fields of `ppm_env`.
-/

namespace PpmThermal

/-! ## Machine integers -/

/-- Number of values of a C `unsigned int` (32 bits). -/
def UINT_RANGE : Nat := 4294967296

/-- Conversion of an integer to C `unsigned int`: reduction modulo 2^32. -/
def to_uint (z : Int) : Nat := (z % (UINT_RANGE : Int)).toNat

/-! ## Calls to the rest of the kernel -/

/-- One `struct ppm_cluster_status`: what `mt_ppm_thermal_get_cur_power`
fills in for a cluster. -/
structure ppm_cluster_status where
  core_num : Nat
  freq_idx : Int
  volt : Nat
  deriving DecidableEq, Repr

/-- Calls made by the thermal policy to the rest of the kernel, in the order
they are issued. -/
inductive ppm_event where
  /-- Call of `ppm_info("Get budget from thermal => limited_power = %d\n", ...)`. -/
  | info_budget (limited_power : Nat)
  /-- Call of `ppm_lock(&thermal_policy.lock)`. -/
  | lock
  /-- Call of `ppm_unlock(&thermal_policy.lock)`. -/
  | unlock
  /-- Call of `ppm_warn("@%s: thermal policy is not enabled!\n", __func__)`. -/
  | warn_not_enabled
  /-- Call of `ppm_task_wakeup()`. -/
  | task_wakeup
  /-- Call of `kcalloc(n, sizeof(*cluster_status), GFP_KERNEL)`. -/
  | kcalloc (n : Nat)
  /-- Call of `kfree(cluster_status)`. -/
  | kfree
  /-- Call of `mt_cpufreq_get_cur_phy_freq(i)`. -/
  | get_cur_phy_freq (cluster : Nat)
  /-- Call of `ppm_main_freq_to_idx(i, freq, relation)`. -/
  | freq_to_idx (cluster freq relation : Nat)
  /-- Call of `ppm_ver("[%d] core = %d, freq_idx = %d\n", ...)`. -/
  | ver_cluster (cluster : Nat) (core_num : Nat) (freq_idx : Int)
  /-- Call of `ppm_find_pwr_idx(cluster_status)`. -/
  | find_pwr_idx (cluster_status : List ppm_cluster_status)
  /-- Call of `ppm_ver("@%s: thermal policy update limit for new state = %s\n", ...)`. -/
  | ver_update_limit (new_state : Nat)
  /-- Call of `ppm_hica_set_default_limit_by_state(new_state, &thermal_policy)`. -/
  | hica_set_default_limit_by_state (new_state : Nat)
  /-- Call of `ppm_main_update_req_by_pwr(new_state, &thermal_policy.req)`. -/
  | main_update_req_by_pwr (new_state : Nat)
  /-- Call of `ppm_ver("@%s: thermal policy status changed to %d\n", ...)`. -/
  | ver_status_change (enable : Bool)
  /-- Call of `ppm_ver("@%s: ppm mode changed to %d\n", ...)`. -/
  | ver_mode_change (mode : Nat)
  /-- Call of `ppm_copy_from_user_for_proc(buffer, count)`. -/
  | copy_from_user_for_proc (count : Nat)
  /-- Call of `ppm_err("@%s: Invalid input!\n", __func__)`. -/
  | err_invalid_input
  /-- Call of `free_page((unsigned long)buf)`. -/
  | free_page
  /-- Call of `proc_create(name, S_IRUGO | S_IWUSR | S_IWGRP, policy_dir, fops)`. -/
  | proc_create (name : String)
  /-- Call of `ppm_err("%s(), create /proc/ppm/policy/%s failed\n", ...)`. -/
  | err_proc_create (name : String)
  /-- Call of `ppm_main_register_policy(&thermal_policy)`. -/
  | register_policy (name : String)
  /-- Call of `ppm_err("@%s: thermal policy register failed\n", __func__)`. -/
  | err_register
  /-- Call of `ppm_info("@%s: register %s done!\n", ...)`. -/
  | info_register_done (name : String)
  deriving DecidableEq, Repr

/-! ## The policy object -/

/-- The part of `struct ppm_policy_req` this file reads or writes
(`power_budget`), and the per-cluster limits kept next to it. -/
structure ppm_policy_req where
  power_budget : Nat
  limit : List (Int × Int × Nat × Nat)
  deriving DecidableEq, Repr

/-- The functions of this file whose addresses are stored in the callback
members of `thermal_policy`. -/
inductive ppm_callback where
  | ppm_thermal_update_limit_cb
  | ppm_thermal_status_change_cb
  | ppm_thermal_mode_change_cb
  deriving DecidableEq, Repr

/-- The fields of `struct ppm_policy_data` named by the initialiser of
`thermal_policy` and by the functions of this file; a callback member is
`none` when it is `NULL`. The mutex `lock` is not a data field here: taking
and releasing it are `ppm_event`s. -/
structure ppm_policy_data where
  name : String
  policy : Nat
  priority : Nat
  get_power_state_cb : Option ppm_callback
  update_limit_cb : Option ppm_callback
  status_change_cb : Option ppm_callback
  mode_change_cb : Option ppm_callback
  is_enabled : Bool
  is_activated : Bool
  req : ppm_policy_req
  deriving DecidableEq, Repr

/-- The static `thermal_policy` with the calls issued so far. -/
structure ppm_state where
  thermal_policy : ppm_policy_data
  trace : List ppm_event
  deriving DecidableEq, Repr

/-- Appends one call to the trace. -/
def emit (e : ppm_event) (s : ppm_state) : ppm_state :=
  { s with trace := s.trace ++ [e] }

/-- Number of `ppm_task_wakeup()` calls in a trace. -/
def wakeups (tr : List ppm_event) : Nat :=
  tr.count ppm_event.task_wakeup

/-- Embedding of `void mt_ppm_cpu_thermal_protect(unsigned int limited_power)`:
the budget is stored and the activation flag set only when the policy is
enabled; `FUNC_ENTER`/`FUNC_EXIT` are debug markers and are left out. -/
def mt_ppm_cpu_thermal_protect (limited_power : Nat) (s : ppm_state) : ppm_state :=
  let s := emit (ppm_event.info_budget limited_power) s
  let s := emit ppm_event.lock s
  if !s.thermal_policy.is_enabled then
    let s := emit ppm_event.warn_not_enabled s
    let s := emit ppm_event.unlock s
    s
  else
    let s := { s with thermal_policy :=
      { s.thermal_policy with
        req := { s.thermal_policy.req with power_budget := limited_power } } }
    let s := { s with thermal_policy :=
      { s.thermal_policy with
        is_activated := if limited_power ≠ 0 then true else false } }
    let s := emit ppm_event.unlock s
    let s := emit ppm_event.task_wakeup s
    s

/-! ## The power table -/

/-- One `struct ppm_power_tbl` entry: its ordinal `index` and its power value
`power_idx` (the field the thermal policy reads). -/
structure ppm_power_tbl where
  index : Nat
  power_idx : Nat
  deriving DecidableEq, Repr

/-- The `struct ppm_power_tbl_data` returned by `ppm_get_power_table()`: the
entry array and the entry count stored next to it. -/
structure ppm_power_tbl_data where
  power_tbl : List ppm_power_tbl
  nr_power_tbl : Nat
  deriving DecidableEq, Repr

/-- The count field is an `unsigned int` and is the length of the array. -/
def table_wf (t : ppm_power_tbl_data) : Prop :=
  t.nr_power_tbl = t.power_tbl.length ∧ t.nr_power_tbl < UINT_RANGE

instance (t : ppm_power_tbl_data) : Decidable (table_wf t) :=
  inferInstanceAs (Decidable (t.nr_power_tbl = t.power_tbl.length ∧ t.nr_power_tbl < UINT_RANGE))

/-- The table is strictly descending by power value. -/
def strictly_descending (t : ppm_power_tbl_data) : Prop :=
  t.power_tbl.Pairwise (fun (a b : ppm_power_tbl) => b.power_idx < a.power_idx)

instance (t : ppm_power_tbl_data) : Decidable (strictly_descending t) :=
  inferInstanceAs (Decidable
    (t.power_tbl.Pairwise (fun (a b : ppm_power_tbl) => b.power_idx < a.power_idx)))

/-- Embedding of `unsigned int mt_ppm_thermal_get_min_power(void)`: reads entry
`size - 1` (unsigned arithmetic); `none` is a read outside the array. -/
def mt_ppm_thermal_get_min_power (power_table : ppm_power_tbl_data) : Option Nat :=
  let size := power_table.nr_power_tbl
  (power_table.power_tbl[to_uint ((size : Int) - 1)]?).map (fun e => e.power_idx)

/-- Embedding of `unsigned int mt_ppm_thermal_get_max_power(void)`: reads entry
0; `none` is a read outside the array. -/
def mt_ppm_thermal_get_max_power (power_table : ppm_power_tbl_data) : Option Nat :=
  (power_table.power_tbl[0]?).map (fun e => e.power_idx)

/-! ## Current power -/

/-- A `struct cpumask`: the bitmap as the sequence of its bits, entry `c` is
`true` when CPU `c` is in the mask. -/
abbrev cpumask := List Bool

/-- Model of `cpumask_and(dst, a, b)`: the bitwise and of the two masks. -/
def cpumask_and (a b : cpumask) : cpumask := List.zipWith (fun x y => x && y) a b

/-- Model of `cpumask_weight(m)`: the number of bits set in the mask. -/
def cpumask_weight (m : cpumask) : Nat := m.count true

/-- Value of `CPUFREQ_RELATION_L` in `linux/cpufreq.h`. -/
def CPUFREQ_RELATION_L : Nat := 0

/-- What `mt_ppm_thermal_get_cur_power` reads from the rest of the kernel: the
power table, the cluster count of `ppm_main_info`, whether `kcalloc` returns
a buffer, the CPU masks, the current frequencies, and the two lookups of the
PPM core, `ppm_main_freq_to_idx` (frequency to index) and `ppm_find_pwr_idx`
(cluster statuses to power), both returning a C `int`. -/
structure ppm_env where
  ppm_get_power_table : ppm_power_tbl_data
  cluster_num : Nat
  kcalloc_ok : Bool
  arch_get_cluster_cpus : Nat → cpumask
  cpu_online_mask : cpumask
  mt_cpufreq_get_cur_phy_freq : Nat → Nat
  ppm_main_freq_to_idx : Nat → Nat → Nat → Int
  ppm_find_pwr_idx : List ppm_cluster_status → Int

/-- The scratch buffer of `mt_ppm_thermal_get_cur_power` and the calls issued
so far. -/
structure cur_power_state where
  cluster_status : List ppm_cluster_status
  trace : List ppm_event
  deriving DecidableEq, Repr

/-- Number of online CPUs of cluster `i`:
`cpumask_weight(cluster_cpu & cpu_online_mask)`. -/
def online_core_num (env : ppm_env) (i : Nat) : Nat :=
  let cluster_cpu := env.arch_get_cluster_cpus i
  let online_cpu := cpumask_and cluster_cpu env.cpu_online_mask
  cpumask_weight online_cpu

/-- One iteration of the `for_each_ppm_clusters(i)` loop of
`mt_ppm_thermal_get_cur_power`: fills `cluster_status[i]`. -/
def cur_power_body (env : ppm_env) (st : cur_power_state) (i : Nat) : cur_power_state :=
  let core_num := online_core_num env i
  if core_num = 0 then
    let entry : ppm_cluster_status := { core_num := core_num, volt := 0, freq_idx := -1 }
    { cluster_status := st.cluster_status.set i entry,
      trace := st.trace ++ [ppm_event.ver_cluster i entry.core_num entry.freq_idx] }
  else
    let freq := env.mt_cpufreq_get_cur_phy_freq i
    let entry : ppm_cluster_status :=
      { core_num := core_num, volt := 0,
        freq_idx := env.ppm_main_freq_to_idx i freq CPUFREQ_RELATION_L }
    { cluster_status := st.cluster_status.set i entry,
      trace := st.trace ++ [ppm_event.get_cur_phy_freq i,
        ppm_event.freq_to_idx i freq CPUFREQ_RELATION_L,
        ppm_event.ver_cluster i entry.core_num entry.freq_idx] }

/-- The zero-filled entry `kcalloc` hands out. -/
def zero_status : ppm_cluster_status := { core_num := 0, freq_idx := 0, volt := 0 }

/-- The whole `for_each_ppm_clusters(i)` loop, `i = 0 .. cluster_num - 1`,
started on the zero-filled buffer of `cluster_num` entries. -/
def cur_power_loop (env : ppm_env) (tr : List ppm_event) : cur_power_state :=
  (List.range env.cluster_num).foldl (cur_power_body env)
    { cluster_status := List.replicate env.cluster_num zero_status, trace := tr }

/-- Embedding of `unsigned int mt_ppm_thermal_get_cur_power(void)` (the
`#else` branches, the ones compiled): the returned value, `none` when it comes
from a read outside the power table, and the calls issued. -/
def mt_ppm_thermal_get_cur_power_run (env : ppm_env) : Option Nat × List ppm_event :=
  let tr := [ppm_event.kcalloc env.cluster_num]
  if !env.kcalloc_ok then
    (mt_ppm_thermal_get_max_power env.ppm_get_power_table, tr)
  else
    let st := cur_power_loop env tr
    let power : Int := env.ppm_find_pwr_idx st.cluster_status
    let tr := st.trace ++ [ppm_event.find_pwr_idx st.cluster_status, ppm_event.kfree]
    if power = -1 then
      (mt_ppm_thermal_get_max_power env.ppm_get_power_table, tr)
    else
      (some (to_uint power), tr)

/-- The value returned by `mt_ppm_thermal_get_cur_power()`. -/
def mt_ppm_thermal_get_cur_power (env : ppm_env) : Option Nat :=
  (mt_ppm_thermal_get_cur_power_run env).1

/-- The cluster statuses `mt_ppm_thermal_get_cur_power` hands to
`ppm_find_pwr_idx` when the buffer was allocated. -/
def cur_power_statuses (env : ppm_env) : List ppm_cluster_status :=
  (cur_power_loop env [ppm_event.kcalloc env.cluster_num]).cluster_status

/-- The entry the loop of `mt_ppm_thermal_get_cur_power` writes for cluster
`i`: the online core count, `volt = 0`, and as `freq_idx` either -1 (cluster
offline) or the answer of `ppm_main_freq_to_idx` for the current frequency. -/
def cur_power_entry (env : ppm_env) (i : Nat) : ppm_cluster_status :=
  { core_num := online_core_num env i,
    volt := 0,
    freq_idx :=
      if online_core_num env i = 0 then -1
      else env.ppm_main_freq_to_idx i (env.mt_cpufreq_get_cur_phy_freq i) CPUFREQ_RELATION_L }

/-- Modelled from the spec: `ppm_find_pwr_idx`, the combiner of the PPM core,
whose body is not part of this source file. The spec gives one case of its
answer, "If combination fails (not found), e.g. all clusters offline or no
table entry matches": when every cluster is offline the answer is -1 (not
found); for other statuses the answer is left to `lookup`. -/
def ppm_find_pwr_idx_model (lookup : List ppm_cluster_status → Int)
    (cluster_status : List ppm_cluster_status) : Int :=
  if cluster_status.all (fun c => c.core_num == 0) then -1 else lookup cluster_status

/-! ## Arbitration callbacks -/

/-- The two functions of the PPM core that `ppm_thermal_update_limit_cb`
calls. Both receive a pointer, the first to the whole policy and the second
to its request, and are taken here as the update they perform on it. -/
structure ppm_main_helpers where
  ppm_hica_set_default_limit_by_state : Nat → ppm_policy_data → ppm_policy_data
  ppm_main_update_req_by_pwr : Nat → ppm_policy_req → ppm_policy_req

/-- Embedding of `static void ppm_thermal_update_limit_cb(enum ppm_power_state
new_state)`: the default limit of the state is set on the policy, then the
request is updated according to the power budget. -/
def ppm_thermal_update_limit_cb (h : ppm_main_helpers) (new_state : Nat)
    (s : ppm_state) : ppm_state :=
  let s := emit (ppm_event.ver_update_limit new_state) s
  let s := emit (ppm_event.hica_set_default_limit_by_state new_state)
    { s with thermal_policy :=
        h.ppm_hica_set_default_limit_by_state new_state s.thermal_policy }
  let s := emit (ppm_event.main_update_req_by_pwr new_state)
    { s with thermal_policy :=
        { s.thermal_policy with
          req := h.ppm_main_update_req_by_pwr new_state s.thermal_policy.req } }
  s

/-- Embedding of `static void ppm_thermal_status_change_cb(bool enable)`: a
log line and nothing else. -/
def ppm_thermal_status_change_cb (enable : Bool) (s : ppm_state) : ppm_state :=
  emit (ppm_event.ver_status_change enable) s

/-- Embedding of `static void ppm_thermal_mode_change_cb(enum ppm_mode mode)`:
a log line and nothing else. -/
def ppm_thermal_mode_change_cb (mode : Nat) (s : ppm_state) : ppm_state :=
  emit (ppm_event.ver_mode_change mode) s

/-- Modelled from the spec: `ppm_hica_set_default_limit_by_state`, the shared
"default limit for state" helper, whose body is not part of this source file.
Step (1) of UpdateLimit, "compute the policy's state-default limit": the
per-cluster limits of the request become the default limits of the state,
every other member of the policy is left as it is. -/
def ppm_hica_set_default_limit_by_state_model
    (default_limit : Nat → List (Int × Int × Nat × Nat))
    (new_state : Nat) (policy : ppm_policy_data) : ppm_policy_data :=
  { policy with req := { policy.req with limit := default_limit new_state } }

/-- Modelled from the spec: `ppm_main_update_req_by_pwr`, whose body is not
part of this source file. Step (2) of UpdateLimit, "refine that default using
the currently stored budget to produce this policy's effective request": the
limits are refined from the state, the stored budget and the limits found;
the budget itself is read, not written. -/
def ppm_main_update_req_by_pwr_model
    (refine : Nat → Nat → List (Int × Int × Nat × Nat) → List (Int × Int × Nat × Nat))
    (new_state : Nat) (req : ppm_policy_req) : ppm_policy_req :=
  { req with limit := refine new_state req.power_budget req.limit }

/-- The two modelled helpers together. -/
def ppm_main_helpers_model (default_limit : Nat → List (Int × Int × Nat × Nat))
    (refine : Nat → Nat → List (Int × Int × Nat × Nat) → List (Int × Int × Nat × Nat)) :
    ppm_main_helpers :=
  { ppm_hica_set_default_limit_by_state :=
      ppm_hica_set_default_limit_by_state_model default_limit,
    ppm_main_update_req_by_pwr := ppm_main_update_req_by_pwr_model refine }

/-! ## The diagnostic channel -/

/-- Value of `EINVAL` in `errno-base.h`. -/
def EINVAL : Int := 22

/-- Reading of a 32-bit argument by the `%d` conversion: the value as a C
`int` (two's complement). -/
def to_int (n : Nat) : Int :=
  if n % UINT_RANGE < 2147483648 then ((n % UINT_RANGE : Nat) : Int)
  else ((n % UINT_RANGE : Nat) : Int) - (UINT_RANGE : Int)

/-- Embedding of `static int ppm_thermal_limit_proc_show(struct seq_file *m,
void *v)`: the return value and the text the two `seq_printf` calls append.
The `unsigned int` budget and the `bool` flag are both printed with `%d`. -/
def ppm_thermal_limit_proc_show (thermal_policy : ppm_policy_data) : Int × String :=
  let m := "limited power = " ++ toString (to_int thermal_policy.req.power_budget) ++ "\n"
  let m := m ++ "PPM thermal activate = "
    ++ toString (if thermal_policy.is_activated then (1 : Int) else 0) ++ "\n"
  (0, m)

/-- Embedding of `static ssize_t ppm_thermal_limit_proc_write(...)`. `buf` is
what `ppm_copy_from_user_for_proc` returns (`none` for `NULL`), `kstrtouint`
is the kernel parser (`none` for a nonzero return, else the value stored in
`limited_power`). Returns the value returned and the new state. -/
def ppm_thermal_limit_proc_write (kstrtouint : String → Nat → Option Nat)
    (buf : Option String) (count : Nat) (s : ppm_state) : Int × ppm_state :=
  let s := emit (ppm_event.copy_from_user_for_proc count) s
  match buf with
  | none => (-EINVAL, s)
  | some text =>
    match kstrtouint text 10 with
    | some limited_power =>
      let s := mt_ppm_cpu_thermal_protect limited_power s
      let s := emit ppm_event.free_page s
      ((count : Int), s)
    | none =>
      let s := emit ppm_event.err_invalid_input s
      let s := emit ppm_event.free_page s
      ((count : Int), s)

/-- Value of the decimal digits read so far, `none` once a character is not
a digit of the base. -/
def parse_digits (base : Nat) (cs : List Char) : Option Nat :=
  cs.foldl (fun acc c =>
    acc.bind (fun n =>
      if c.isDigit ∧ c.toNat - 48 < base then some (n * base + (c.toNat - 48)) else none))
    (some 0)

/-- Modelled from the spec: `kstrtouint`, the parser of the kernel library,
whose body is not part of the source files. The spec says of it "accepting a
base-10 unsigned-integer write (non-numeric input rejected)": a non-empty run
of digits whose value fits an `unsigned int` is accepted with that value,
everything else is rejected. The sign and the final newline the kernel
routine also lets through are not modelled. -/
def kstrtouint_model (text : String) (base : Nat) : Option Nat :=
  match text.toList with
  | [] => none
  | cs =>
    match parse_digits base cs with
    | some v => if v < UINT_RANGE then some v else none
    | none => none

/-! ## Initialisation -/

/-- What initialisation acts on: the entries of `/proc/ppm/policy`, the names
on the policy list of the PPM core, and the calls issued so far. -/
structure ppm_init_state where
  proc_entries : List String
  policy_list : List String
  trace : List ppm_event
  deriving DecidableEq, Repr

/-- The `entries[]` array of `ppm_thermal_policy_init`: `PROC_ENTRY(name)`
gives the entry the name `name`. -/
def entries : List String := ["thermal_limit", "thermal_cur_power"]

/-- The "create procfs" loop of `ppm_thermal_policy_init`: stops with `false`
at the first `proc_create` that returns `NULL`; a created entry stays. -/
def create_procfs (proc_create_ok : String → Bool) :
    List String → ppm_init_state → Bool × ppm_init_state
  | [], st => (true, st)
  | name :: rest, st =>
    let st := { st with trace := st.trace ++ [ppm_event.proc_create name] }
    if !proc_create_ok name then
      (false, { st with trace := st.trace ++ [ppm_event.err_proc_create name] })
    else
      create_procfs proc_create_ok rest
        { st with proc_entries := st.proc_entries ++ [name] }

/-- Modelled from the spec: `ppm_main_register_policy`, whose body is not part
of this source file. "Register(descriptor) -> Ok | Conflict", with a conflict
for a "duplicate name or full registry" and "no partial registration left
behind": on a conflict the answer is nonzero and the policy list is as
before, otherwise the answer is 0 and the name is on the list. -/
def ppm_main_register_policy_model (capacity : Nat) (policy : ppm_policy_data)
    (policy_list : List String) : Int × List String :=
  if policy.name ∈ policy_list ∨ capacity ≤ policy_list.length then
    (-EINVAL, policy_list)
  else
    (0, policy_list ++ [policy.name])

/-- Embedding of `static int __init ppm_thermal_policy_init(void)`:
`proc_create_ok` tells which `proc_create` calls succeed and
`ppm_main_register_policy` is the registration of the PPM core. Returns `ret`
and the state left behind. -/
def ppm_thermal_policy_init (proc_create_ok : String → Bool)
    (ppm_main_register_policy : ppm_policy_data → List String → Int × List String)
    (thermal_policy : ppm_policy_data) (st : ppm_init_state) : Int × ppm_init_state :=
  let ret : Int := 0
  match create_procfs proc_create_ok entries st with
  | (false, st) => (-EINVAL, st)
  | (true, st) =>
    let r := ppm_main_register_policy thermal_policy st.policy_list
    let st := { st with policy_list := r.2,
                        trace := st.trace ++ [ppm_event.register_policy thermal_policy.name] }
    if r.1 ≠ 0 then
      (-EINVAL, { st with trace := st.trace ++ [ppm_event.err_register] })
    else
      (ret, { st with
        trace := st.trace ++ [ppm_event.info_register_done thermal_policy.name] })

/-! ## Sequences of operations -/

/-- Modelled from the spec: the "external enable/disable control not owned by
this component", whose code is not part of this source file: it writes
`is_enabled` and nothing else. -/
def external_set_enabled (enable : Bool) (s : ppm_state) : ppm_state :=
  { s with thermal_policy := { s.thermal_policy with is_enabled := enable } }

/-- The operations on the thermal policy: the functions of this file and the
external enable/disable control. -/
inductive thermal_op where
  /-- SetBudget: `mt_ppm_cpu_thermal_protect(limited_power)`. -/
  | set_budget (limited_power : Nat)
  /-- UpdateLimit: `ppm_thermal_update_limit_cb(new_state)`. -/
  | update_limit (new_state : Nat)
  /-- StatusChange: `ppm_thermal_status_change_cb(enable)`. -/
  | status_change (enable : Bool)
  /-- ModeChange: `ppm_thermal_mode_change_cb(mode)`. -/
  | mode_change (mode : Nat)
  /-- A write to `thermal_limit`: `ppm_thermal_limit_proc_write`. -/
  | proc_write (buf : Option String) (count : Nat)
  /-- The external control sets `is_enabled`. -/
  | set_enabled (enable : Bool)
  deriving DecidableEq, Repr

/-- One operation applied to the state. -/
def apply_op (h : ppm_main_helpers) (kstrtouint : String → Nat → Option Nat) :
    thermal_op → ppm_state → ppm_state
  | thermal_op.set_budget limited_power, s => mt_ppm_cpu_thermal_protect limited_power s
  | thermal_op.update_limit new_state, s => ppm_thermal_update_limit_cb h new_state s
  | thermal_op.status_change enable, s => ppm_thermal_status_change_cb enable s
  | thermal_op.mode_change mode, s => ppm_thermal_mode_change_cb mode s
  | thermal_op.proc_write buf count, s =>
    (ppm_thermal_limit_proc_write kstrtouint buf count s).2
  | thermal_op.set_enabled enable, s => external_set_enabled enable s

/-- A sequence of operations applied in order. -/
def run_ops (h : ppm_main_helpers) (kstrtouint : String → Nat → Option Nat)
    (ops : List thermal_op) (s : ppm_state) : ppm_state :=
  ops.foldl (fun s op => apply_op h kstrtouint op s) s

/-- The activation flag tells whether the stored budget is nonzero. -/
def activation_matches_budget (p : ppm_policy_data) : Prop :=
  p.is_activated = true ↔ p.req.power_budget ≠ 0

/-- Modelled from the spec: `ppm_find_pwr_idx` on statuses with a cluster
online. The resolver "combines per-cluster indices into one system-wide
index", an offline cluster is "excluded from the aggregate key", and the
combination fails when "no table entry matches": the key is the frequency
indices of the online clusters, one index alone is the system-wide index
(scenario 8 of the spec), several are combined by `combine`, which the spec
leaves open; the answer is the power of the table entry with that index, -1
(not found) when there is none or when every cluster is offline. -/
def ppm_find_pwr_idx_spec (power_table : ppm_power_tbl_data) (combine : List Int → Int) :
    List ppm_cluster_status → Int :=
  ppm_find_pwr_idx_model (fun cluster_status =>
    let key := (cluster_status.filter (fun c => c.core_num != 0)).map (fun c => c.freq_idx)
    let idx : Int :=
      match key with
      | [i] => i
      | _ => combine key
    match power_table.power_tbl.find? (fun e => (e.index : Int) == idx) with
    | some e => to_int e.power_idx
    | none => -1)

/-! ## Two concurrent callers of SetBudget -/

/-- The program points of `mt_ppm_cpu_thermal_protect`, one before each
statement of its body. -/
inductive protect_pc where
  /-- Before `ppm_info(...)`. -/
  | at_info
  /-- Before `ppm_lock(&thermal_policy.lock)`. -/
  | at_lock
  /-- Before `if (!thermal_policy.is_enabled)`. -/
  | at_test
  /-- Before `ppm_warn(...)`. -/
  | at_warn
  /-- Before the `ppm_unlock` of the disabled branch. -/
  | at_unlock_disabled
  /-- Before `thermal_policy.req.power_budget = limited_power`. -/
  | at_store_budget
  /-- Before `thermal_policy.is_activated = (limited_power) ? true : false`. -/
  | at_store_activated
  /-- Before the `ppm_unlock` that follows the two stores. -/
  | at_unlock
  /-- Before `ppm_task_wakeup()`. -/
  | at_wakeup
  /-- After the last statement. -/
  | done
  deriving DecidableEq, Repr

/-- Two callers of `mt_ppm_cpu_thermal_protect` run at once: the shared policy
record, the holder of `thermal_policy.lock` (`none` when it is free), the
number of wake-ups issued, and the program point of each caller. The callers
are named `false` and `true`. -/
structure conc_state where
  thermal_policy : ppm_policy_data
  lock_owner : Option Bool
  wakeups : Nat
  pc0 : protect_pc
  pc1 : protect_pc
  deriving DecidableEq, Repr

/-- Program point of a caller. -/
def get_pc (c : conc_state) (tid : Bool) : protect_pc :=
  if tid then c.pc1 else c.pc0

/-- Moves a caller to a program point. -/
def set_pc (c : conc_state) (tid : Bool) (pc : protect_pc) : conc_state :=
  if tid then { c with pc1 := pc } else { c with pc0 := pc }

/-- One statement of `mt_ppm_cpu_thermal_protect(limited_power)` executed by
caller `tid`; `none` when the caller cannot move: it has returned, or it
waits in `ppm_lock` for a mutex that is held. -/
def thread_step (limited_power : Nat) (tid : Bool) (c : conc_state) : Option conc_state :=
  match get_pc c tid with
  | protect_pc.at_info => some (set_pc c tid protect_pc.at_lock)
  | protect_pc.at_lock =>
    match c.lock_owner with
    | none => some (set_pc { c with lock_owner := some tid } tid protect_pc.at_test)
    | some _ => none
  | protect_pc.at_test =>
    if !c.thermal_policy.is_enabled then some (set_pc c tid protect_pc.at_warn)
    else some (set_pc c tid protect_pc.at_store_budget)
  | protect_pc.at_warn => some (set_pc c tid protect_pc.at_unlock_disabled)
  | protect_pc.at_unlock_disabled =>
    some (set_pc { c with lock_owner := none } tid protect_pc.done)
  | protect_pc.at_store_budget =>
    some (set_pc { c with thermal_policy :=
      { c.thermal_policy with
        req := { c.thermal_policy.req with power_budget := limited_power } } }
      tid protect_pc.at_store_activated)
  | protect_pc.at_store_activated =>
    some (set_pc { c with thermal_policy :=
      { c.thermal_policy with
        is_activated := if limited_power ≠ 0 then true else false } }
      tid protect_pc.at_unlock)
  | protect_pc.at_unlock => some (set_pc { c with lock_owner := none } tid protect_pc.at_wakeup)
  | protect_pc.at_wakeup => some (set_pc { c with wakeups := c.wakeups + 1 } tid protect_pc.done)
  | protect_pc.done => none

/-- The scheduler picks caller `tid`: it executes one statement, with budget
`a` for caller `false` and `b` for caller `true`, or stays where it is when
it cannot move. -/
def conc_step (a b : Nat) (c : conc_state) (tid : Bool) : conc_state :=
  (thread_step (if tid then b else a) tid c).getD c

/-- A whole schedule, one pick per step. -/
def conc_run (a b : Nat) (schedule : List Bool) (c : conc_state) : conc_state :=
  schedule.foldl (conc_step a b) c

/-- Both callers at the entry of the function, the mutex free. -/
def conc_init (p : ppm_policy_data) : conc_state :=
  { thermal_policy := p, lock_owner := none, wakeups := 0,
    pc0 := protect_pc.at_info, pc1 := protect_pc.at_info }

/-- The program points at which a caller holds the mutex. -/
def holds_lock (pc : protect_pc) : Bool :=
  match pc with
  | protect_pc.at_test | protect_pc.at_warn | protect_pc.at_unlock_disabled
  | protect_pc.at_store_budget | protect_pc.at_store_activated | protect_pc.at_unlock => true
  | _ => false

/-- The program points after both stores of the enabled branch. -/
def has_written (pc : protect_pc) : Bool :=
  match pc with
  | protect_pc.at_unlock | protect_pc.at_wakeup | protect_pc.done => true
  | _ => false

/-- The policy holds the full write of one caller: budget `a` with the flag
of `a`, or budget `b` with the flag of `b`. -/
def one_full_write (a b : Nat) (p : ppm_policy_data) : Prop :=
  (p.req.power_budget = a ∧ p.is_activated = decide (a ≠ 0)) ∨
  (p.req.power_budget = b ∧ p.is_activated = decide (b ≠ 0))

/-- What holds in every state two callers can reach on an enabled policy: the
mutex is held exactly by a caller inside the locked region, nobody is on the
disabled branch, a caller between its two stores has stored its budget, and
outside such a moment the policy holds one caller's full write as soon as one
caller has written. -/
def conc_inv (a b : Nat) (c : conc_state) : Prop :=
  c.thermal_policy.is_enabled = true ∧
  (c.lock_owner = some false ↔ holds_lock c.pc0 = true) ∧
  (c.lock_owner = some true ↔ holds_lock c.pc1 = true) ∧
  (c.pc0 ≠ protect_pc.at_warn ∧ c.pc0 ≠ protect_pc.at_unlock_disabled) ∧
  (c.pc1 ≠ protect_pc.at_warn ∧ c.pc1 ≠ protect_pc.at_unlock_disabled) ∧
  (c.pc0 = protect_pc.at_store_activated → c.thermal_policy.req.power_budget = a) ∧
  (c.pc1 = protect_pc.at_store_activated → c.thermal_policy.req.power_budget = b) ∧
  ((has_written c.pc0 = true ∨ has_written c.pc1 = true) →
    c.pc0 ≠ protect_pc.at_store_activated → c.pc1 ≠ protect_pc.at_store_activated →
    one_full_write a b c.thermal_policy)

/-! ## The statuses handed to the combiner -/

/-- The calls one iteration of the loop of `mt_ppm_thermal_get_cur_power`
issues for cluster `i`: for an offline cluster the log line alone, for an
online one the frequency read and the resolver before it. -/
def cur_power_events (env : ppm_env) (i : Nat) : List ppm_event :=
  if online_core_num env i = 0 then
    [ppm_event.ver_cluster i (online_core_num env i) (-1)]
  else
    [ppm_event.get_cur_phy_freq i,
     ppm_event.freq_to_idx i (env.mt_cpufreq_get_cur_phy_freq i) CPUFREQ_RELATION_L,
     ppm_event.ver_cluster i (online_core_num env i)
       (env.ppm_main_freq_to_idx i (env.mt_cpufreq_get_cur_phy_freq i) CPUFREQ_RELATION_L)]

/-- Index of the table frequency nearest to `freq` from below: among the
entries not above `freq` the one with the greatest frequency, -1 when every
entry is above `freq`. -/
def round_down_idx (tbl : List Nat) (freq : Nat) : Int :=
  match (List.range tbl.length).foldl
      (fun (best : Option Nat) i =>
        if tbl.getD i 0 ≤ freq then
          match best with
          | none => some i
          | some j => if tbl.getD j 0 < tbl.getD i 0 then some i else some j
        else best)
      none with
  | none => -1
  | some i => (i : Int)

/-- Modelled from the spec: `ppm_main_freq_to_idx`, the frequency resolver of
the PPM core, whose body is not part of this source file. For the low
relation the spec says "round down to the nearest index whose performance
point is ≤ the actual frequency (low-relation match, never round up)", with
NotFound (-1) when there is none; `dvfs_tbl` gives the frequencies of each
cluster's table and `other` the answer for the other relations, which the
spec leaves open. -/
def ppm_main_freq_to_idx_model (dvfs_tbl : Nat → List Nat) (other : Nat → Nat → Nat → Int)
    (cluster freq relation : Nat) : Int :=
  if relation = CPUFREQ_RELATION_L then round_down_idx (dvfs_tbl cluster) freq
  else other cluster freq relation

/-! ## Examples -/

/-- The static initialiser of `thermal_policy`; the members it leaves out are
zero. `policy_id` and `prio` stand for the enumeration constants
`PPM_POLICY_THERMAL` and `PPM_POLICY_PRIO_POWER_BUDGET_BASE`. -/
def thermal_policy_static (policy_id prio : Nat) : ppm_policy_data :=
  { name := "PPM_POLICY_THERMAL",
    policy := policy_id,
    priority := prio,
    get_power_state_cb := none,
    update_limit_cb := some ppm_callback.ppm_thermal_update_limit_cb,
    status_change_cb := some ppm_callback.ppm_thermal_status_change_cb,
    mode_change_cb := some ppm_callback.ppm_thermal_mode_change_cb,
    is_enabled := false,
    is_activated := false,
    req := { power_budget := 0, limit := [] } }

/-- A state in which the policy has been enabled and no call was issued. -/
def state_enabled : ppm_state :=
  { thermal_policy := { thermal_policy_static 0 0 with is_enabled := true }, trace := [] }

/-- A state in which the policy is disabled and holds an earlier budget. -/
def state_disabled : ppm_state :=
  { thermal_policy :=
      { thermal_policy_static 0 0 with
        is_activated := true, req := { power_budget := 70, limit := [] } },
    trace := [] }

/-- The table of the two-entry scenario: powers 100 and 50. -/
def tbl_100_50 : ppm_power_tbl_data :=
  { power_tbl := [{ index := 0, power_idx := 100 }, { index := 1, power_idx := 50 }],
    nr_power_tbl := 2 }

/-- Two clusters (CPUs 0-3 and 4-7), CPU 0 alone online at 1000000 kHz; the
resolver answers index 0 and the combiner answers `p` for every input. -/
def env_const (p : Int) : ppm_env :=
  { ppm_get_power_table := tbl_100_50,
    cluster_num := 2,
    kcalloc_ok := true,
    arch_get_cluster_cpus := fun i =>
      if i = 0 then [true, true, true, true, false, false, false, false]
      else [false, false, false, false, true, true, true, true],
    cpu_online_mask := [true, false, false, false, false, false, false, false],
    mt_cpufreq_get_cur_phy_freq := fun _ => 1000000,
    ppm_main_freq_to_idx := fun _ _ _ => 0,
    ppm_find_pwr_idx := fun _ => p }

/-- As `env_const 50`, but the resolver answers -1 (not found) for every
frequency. -/
def env_resolver_fail : ppm_env :=
  { env_const 50 with ppm_main_freq_to_idx := fun _ _ _ => -1 }

/-- As `env_const 50`, but `kcalloc` returns no buffer. -/
def env_alloc_fail : ppm_env :=
  { env_const 50 with kcalloc_ok := false }

/-- As `env_const 50`, but no CPU is online and the combiner is the modelled
one over a lookup that would answer 50. -/
def env_all_offline : ppm_env :=
  { env_const 50 with
    cpu_online_mask := [false, false, false, false, false, false, false, false],
    ppm_find_pwr_idx := ppm_find_pwr_idx_model (fun _ => 50) }

/-- The zero-initialised policy before any operation. -/
def state_initial (policy_id prio : Nat) : ppm_state :=
  { thermal_policy := thermal_policy_static policy_id prio, trace := [] }

/-- The two-cluster scenario with cluster 0 online at index 0, cluster 1
offline, and the modelled combiner over the table of powers 100 and 50. -/
def env_scenario : ppm_env :=
  { env_const 0 with
    ppm_find_pwr_idx := ppm_find_pwr_idx_spec tbl_100_50 (fun _ => 0) }

/-- A table whose greatest power is the greatest `unsigned int`. -/
def tbl_uint_max : ppm_power_tbl_data :=
  { power_tbl := [{ index := 0, power_idx := 4294967295 }, { index := 1, power_idx := 50 }],
    nr_power_tbl := 2 }

/-- Nothing created and nothing registered yet. -/
def init_state_empty : ppm_init_state :=
  { proc_entries := [], policy_list := [], trace := [] }

/-- Default limits and refinement used in the examples: one cluster, whose
core limit is lowered to 2 under a nonzero budget. -/
def helpers_example : ppm_main_helpers :=
  ppm_main_helpers_model (fun _ => [(0, 7, 0, 4)])
    (fun _ budget limit =>
      if budget = 0 then limit else limit.map (fun l => (l.1, l.2.1, l.2.2.1, 2)))

/-- A schedule that alternates between the two callers until both have
returned. -/
def schedule_alternating : List Bool :=
  [false, true, false, true, false, false, false, false, false, true, true, true, true,
   true, true]

/-- As `env_const 50`, CPU 0 running at 1000000 kHz, with the modelled
resolver over a frequency table of 1500000, 1200000, 900000 and 600000 kHz
for every cluster. -/
def env_round_down : ppm_env :=
  { env_const 50 with
    ppm_main_freq_to_idx :=
      ppm_main_freq_to_idx_model (fun _ => [1500000, 1200000, 900000, 600000])
        (fun _ _ _ => -1) }

/-! ## Setting the budget -/

/-- C1: when the policy is enabled, `mt_ppm_cpu_thermal_protect B` stores `B`
as the power budget and sets `is_activated` to `B != 0`: true for every
`B > 0`, false for `B == 0`. -/
theorem protect_enabled_stores_budget (B : Nat) (s : ppm_state)
    (h : s.thermal_policy.is_enabled = true) :
    (mt_ppm_cpu_thermal_protect B s).thermal_policy.req.power_budget = B ∧
    (mt_ppm_cpu_thermal_protect B s).thermal_policy.is_activated = decide (B ≠ 0) ∧
    (0 < B → (mt_ppm_cpu_thermal_protect B s).thermal_policy.is_activated = true) ∧
    (B = 0 → (mt_ppm_cpu_thermal_protect B s).thermal_policy.is_activated = false) := by
  have hact : (mt_ppm_cpu_thermal_protect B s).thermal_policy.is_activated
      = decide (B ≠ 0) := by
    by_cases hB : B = 0 <;> simp [mt_ppm_cpu_thermal_protect, emit, h, hB]
  refine ⟨?_, hact, ?_, ?_⟩
  · simp [mt_ppm_cpu_thermal_protect, emit, h]
  · intro hpos
    rw [hact]
    exact decide_eq_true (Nat.pos_iff_ne_zero.mp hpos)
  · intro hz
    rw [hact]
    simp [hz]

/-- Witness of C1 at budget 50 on an enabled policy. -/
theorem protect_enabled_stores_budget_witness :
    state_enabled.thermal_policy.is_enabled = true ∧
    (mt_ppm_cpu_thermal_protect 50 state_enabled).thermal_policy.req.power_budget = 50 ∧
    (mt_ppm_cpu_thermal_protect 50 state_enabled).thermal_policy.is_activated = true :=
  ⟨by decide,
   (protect_enabled_stores_budget 50 state_enabled (by decide)).1,
   (protect_enabled_stores_budget 50 state_enabled (by decide)).2.2.1 (by decide)⟩

/-- C2: when the policy is disabled, `mt_ppm_cpu_thermal_protect B` leaves the
whole policy record as it was, in particular the stored budget and
`is_activated`. -/
theorem protect_disabled_keeps_policy (B : Nat) (s : ppm_state)
    (h : s.thermal_policy.is_enabled = false) :
    (mt_ppm_cpu_thermal_protect B s).thermal_policy = s.thermal_policy ∧
    (mt_ppm_cpu_thermal_protect B s).thermal_policy.req.power_budget
      = s.thermal_policy.req.power_budget ∧
    (mt_ppm_cpu_thermal_protect B s).thermal_policy.is_activated
      = s.thermal_policy.is_activated := by
  have hp : (mt_ppm_cpu_thermal_protect B s).thermal_policy = s.thermal_policy := by
    simp [mt_ppm_cpu_thermal_protect, emit, h]
  exact ⟨hp, by rw [hp], by rw [hp]⟩

/-- Witness of C2: budget 0 offered to a disabled policy that holds 70. -/
theorem protect_disabled_keeps_policy_witness :
    state_disabled.thermal_policy.is_enabled = false ∧
    (mt_ppm_cpu_thermal_protect 0 state_disabled).thermal_policy.req.power_budget = 70 ∧
    (mt_ppm_cpu_thermal_protect 0 state_disabled).thermal_policy.is_activated = true :=
  ⟨by decide,
   (protect_disabled_keeps_policy 0 state_disabled (by decide)).2.1,
   (protect_disabled_keeps_policy 0 state_disabled (by decide)).2.2⟩

/-- C3: one call of `mt_ppm_cpu_thermal_protect` issues `ppm_task_wakeup()`
exactly once when the policy is enabled and not at all when it is disabled;
the calls it adds to the trace are given in full. -/
theorem protect_wakeup_count (B : Nat) (s : ppm_state) :
    (mt_ppm_cpu_thermal_protect B s).trace
      = s.trace ++
        (if s.thermal_policy.is_enabled then
          [ppm_event.info_budget B, ppm_event.lock, ppm_event.unlock, ppm_event.task_wakeup]
        else
          [ppm_event.info_budget B, ppm_event.lock, ppm_event.warn_not_enabled,
            ppm_event.unlock]) ∧
    wakeups (mt_ppm_cpu_thermal_protect B s).trace
      = wakeups s.trace + (if s.thermal_policy.is_enabled then 1 else 0) := by
  cases h : s.thermal_policy.is_enabled <;>
    simp [mt_ppm_cpu_thermal_protect, emit, wakeups, h, List.count_append]

/-! ## Table lookups -/

/-- Unsigned `size - 1` is the predecessor when `size` is a nonzero
`unsigned int`. -/
theorem to_uint_pred (n : Nat) (h0 : 0 < n) (hn : n < UINT_RANGE) :
    to_uint ((n : Int) - 1) = n - 1 := by
  unfold to_uint
  unfold UINT_RANGE at *
  omega

/-- Conversion to `unsigned int` keeps a value already in range. -/
theorem to_uint_of_nat (n : Nat) (hn : n < UINT_RANGE) : to_uint (n : Int) = n := by
  unfold to_uint
  unfold UINT_RANGE at *
  omega

/-- The maximum lookup reads the first of the powers, taken in table order. -/
theorem max_power_eq_head (t : ppm_power_tbl_data) :
    mt_ppm_thermal_get_max_power t = (t.power_tbl.map (fun e => e.power_idx))[0]? := by
  simp [mt_ppm_thermal_get_max_power]

/-- With a well-formed non-empty table the minimum lookup reads the last
entry. -/
theorem min_power_eq_last (t : ppm_power_tbl_data) (hwf : table_wf t)
    (hne : 0 < t.nr_power_tbl) :
    mt_ppm_thermal_get_min_power t
      = (t.power_tbl.map (fun e => e.power_idx))[t.power_tbl.length - 1]? := by
  obtain ⟨hlen, hlt⟩ := hwf
  simp only [mt_ppm_thermal_get_min_power]
  rw [to_uint_pred _ hne hlt, hlen]
  simp

/-- In a strictly descending list of numbers every entry lies between the
last and the first, and the two coincide only for a one-entry list. -/
theorem descending_bounds (ps : List Nat) (hd : ps.Pairwise (fun a b => b < a))
    (hne : 0 < ps.length) :
    ∃ mn mx, ps[ps.length - 1]? = some mn ∧ ps[0]? = some mx ∧
      (∀ p ∈ ps, mn ≤ p ∧ p ≤ mx) ∧ (mn = mx ↔ ps.length = 1) := by
  have hlast : ps.length - 1 < ps.length := by omega
  refine ⟨ps[ps.length - 1], ps[0], List.getElem?_eq_getElem hlast,
    List.getElem?_eq_getElem hne, ?_, ?_⟩
  · intro p hp
    obtain ⟨k, hk, rfl⟩ := List.getElem_of_mem hp
    rw [List.pairwise_iff_getElem] at hd
    constructor
    · by_cases hkl : k = ps.length - 1
      · subst hkl; exact le_refl _
      · exact Nat.le_of_lt (hd k (ps.length - 1) hk hlast (by omega))
    · by_cases hk0 : k = 0
      · subst hk0; exact le_refl _
      · exact Nat.le_of_lt (hd 0 k hne hk (by omega))
  · constructor
    · intro heq
      by_contra hlen
      rw [List.pairwise_iff_getElem] at hd
      have := hd 0 (ps.length - 1) hne hlast (by omega)
      omega
    · intro hlen
      have h0 : ps.length - 1 = 0 := by omega
      simp [h0]

/-- What the two lookups read in a well-formed non-empty table. -/
theorem table_lookup (t : ppm_power_tbl_data) (hwf : table_wf t)
    (hne : 0 < t.nr_power_tbl) :
    ∃ first last,
      t.power_tbl.head? = some first ∧ t.power_tbl.getLast? = some last ∧
      t.power_tbl[0]? = some first ∧ t.power_tbl[t.nr_power_tbl - 1]? = some last ∧
      to_uint ((t.nr_power_tbl : Int) - 1) = t.nr_power_tbl - 1 ∧
      t.nr_power_tbl - 1 < t.power_tbl.length ∧
      mt_ppm_thermal_get_max_power t = some first.power_idx ∧
      mt_ppm_thermal_get_min_power t = some last.power_idx := by
  have hidx := to_uint_pred _ hne hwf.2
  have hlen : 0 < t.power_tbl.length := by rw [← hwf.1]; exact hne
  have hlast : t.nr_power_tbl - 1 < t.power_tbl.length := by rw [← hwf.1]; omega
  refine ⟨t.power_tbl[0], t.power_tbl[t.nr_power_tbl - 1], ?_, ?_,
    List.getElem?_eq_getElem hlen, List.getElem?_eq_getElem hlast, hidx, hlast, ?_, ?_⟩
  · rw [List.head?_eq_getElem?]; exact List.getElem?_eq_getElem hlen
  · rw [List.getLast?_eq_getElem?, ← hwf.1]; exact List.getElem?_eq_getElem hlast
  · simp [mt_ppm_thermal_get_max_power, List.getElem?_eq_getElem hlen]
  · simp [mt_ppm_thermal_get_min_power, hidx, List.getElem?_eq_getElem hlast]

/-- C9: for a non-empty table, `mt_ppm_thermal_get_min_power` returns the power
of the last entry (index `nr_power_tbl - 1`) and `mt_ppm_thermal_get_max_power`
the power of the first entry (index 0); the index computed by the unsigned
subtraction is `nr_power_tbl - 1` and both reads are inside the array. -/
theorem min_max_power_lookup (t : ppm_power_tbl_data) (hwf : table_wf t)
    (hne : 0 < t.nr_power_tbl) :
    ∃ first last,
      t.power_tbl.head? = some first ∧ t.power_tbl.getLast? = some last ∧
      t.power_tbl[0]? = some first ∧ t.power_tbl[t.nr_power_tbl - 1]? = some last ∧
      to_uint ((t.nr_power_tbl : Int) - 1) = t.nr_power_tbl - 1 ∧
      t.nr_power_tbl - 1 < t.power_tbl.length ∧
      mt_ppm_thermal_get_max_power t = some first.power_idx ∧
      mt_ppm_thermal_get_min_power t = some last.power_idx :=
  table_lookup t hwf hne

/-- Witness of C9 on the two-entry table with powers 100 and 50. -/
theorem min_max_power_lookup_witness :
    table_wf tbl_100_50 ∧ 0 < tbl_100_50.nr_power_tbl ∧
    ∃ first last,
      tbl_100_50.power_tbl.head? = some first ∧ tbl_100_50.power_tbl.getLast? = some last ∧
      tbl_100_50.power_tbl[0]? = some first ∧
      tbl_100_50.power_tbl[tbl_100_50.nr_power_tbl - 1]? = some last ∧
      to_uint ((tbl_100_50.nr_power_tbl : Int) - 1) = tbl_100_50.nr_power_tbl - 1 ∧
      tbl_100_50.nr_power_tbl - 1 < tbl_100_50.power_tbl.length ∧
      mt_ppm_thermal_get_max_power tbl_100_50 = some first.power_idx ∧
      mt_ppm_thermal_get_min_power tbl_100_50 = some last.power_idx :=
  ⟨by decide, by decide, min_max_power_lookup tbl_100_50 (by decide) (by decide)⟩

/-- Bounds of a well-formed, non-empty, strictly descending table, shared by
the results on the minimum, maximum and current power. -/
theorem table_bounds (t : ppm_power_tbl_data) (hwf : table_wf t)
    (hne : 0 < t.nr_power_tbl) (hd : strictly_descending t) :
    ∃ mn mx, mt_ppm_thermal_get_min_power t = some mn ∧
      mt_ppm_thermal_get_max_power t = some mx ∧
      (∀ e ∈ t.power_tbl, mn ≤ e.power_idx ∧ e.power_idx ≤ mx) ∧
      (mn = mx ↔ t.nr_power_tbl = 1) := by
  have hps : (t.power_tbl.map (fun e => e.power_idx)).Pairwise (fun a b => b < a) := by
    rw [List.pairwise_map]; exact hd
  have hlen : 0 < (t.power_tbl.map (fun e => e.power_idx)).length := by
    rw [List.length_map, ← hwf.1]; exact hne
  obtain ⟨mn, mx, hmn, hmx, hall, hone⟩ := descending_bounds _ hps hlen
  refine ⟨mn, mx, ?_, ?_, ?_, ?_⟩
  · rw [min_power_eq_last t hwf hne, ← hmn, List.length_map]
  · rw [max_power_eq_head, hmx]
  · intro e he
    exact hall e.power_idx (List.mem_map_of_mem _ he)
  · rw [hone, List.length_map, hwf.1]

/-- C10: in a non-empty table that is strictly descending by power,
`mt_ppm_thermal_get_max_power` is the greatest and
`mt_ppm_thermal_get_min_power` the least power of the table, and the two are
equal exactly when the table has one entry. -/
theorem min_max_power_extremes (t : ppm_power_tbl_data) (hwf : table_wf t)
    (hne : 0 < t.nr_power_tbl) (hd : strictly_descending t) :
    ∃ mn mx, mt_ppm_thermal_get_min_power t = some mn ∧
      mt_ppm_thermal_get_max_power t = some mx ∧
      (∃ e ∈ t.power_tbl, e.power_idx = mn) ∧ (∃ e ∈ t.power_tbl, e.power_idx = mx) ∧
      (∀ e ∈ t.power_tbl, mn ≤ e.power_idx ∧ e.power_idx ≤ mx) ∧
      (mn = mx ↔ t.nr_power_tbl = 1) := by
  obtain ⟨mn, mx, hmn, hmx, hall, hone⟩ := table_bounds t hwf hne hd
  obtain ⟨first, last, hh, hl, -, -, -, -, hmax, hmin⟩ := table_lookup t hwf hne
  refine ⟨mn, mx, hmn, hmx, ⟨last, List.mem_of_getLast?_eq_some hl, ?_⟩,
    ⟨first, List.mem_of_mem_head? hh, ?_⟩, hall, hone⟩
  · rw [hmin] at hmn; exact Option.some.inj hmn
  · rw [hmax] at hmx; exact Option.some.inj hmx

/-- Witness of C10 on the two-entry table with powers 100 and 50. -/
theorem min_max_power_extremes_witness :
    table_wf tbl_100_50 ∧ 0 < tbl_100_50.nr_power_tbl ∧ strictly_descending tbl_100_50 ∧
    ∃ mn mx, mt_ppm_thermal_get_min_power tbl_100_50 = some mn ∧
      mt_ppm_thermal_get_max_power tbl_100_50 = some mx ∧
      (∃ e ∈ tbl_100_50.power_tbl, e.power_idx = mn) ∧
      (∃ e ∈ tbl_100_50.power_tbl, e.power_idx = mx) ∧
      (∀ e ∈ tbl_100_50.power_tbl, mn ≤ e.power_idx ∧ e.power_idx ≤ mx) ∧
      (mn = mx ↔ tbl_100_50.nr_power_tbl = 1) :=
  ⟨by decide, by decide, by decide,
    min_max_power_extremes tbl_100_50 (by decide) (by decide) (by decide)⟩

/-! ## Current power -/

/-- Each iteration writes `cur_power_entry env i` at position `i`. -/
theorem cur_power_body_status (env : ppm_env) (st : cur_power_state) (i : Nat) :
    (cur_power_body env st i).cluster_status
      = st.cluster_status.set i (cur_power_entry env i) := by
  unfold cur_power_body cur_power_entry
  by_cases h : online_core_num env i = 0 <;> simp [h]

/-- After the first `k` iterations the buffer holds the entries of clusters
`0 .. k - 1` followed by the untouched zero-filled rest. -/
theorem cur_power_fold_status (env : ppm_env) (n k : Nat) (hk : k ≤ n)
    (tr : List ppm_event) :
    ((List.range k).foldl (cur_power_body env)
        { cluster_status := List.replicate n zero_status, trace := tr }).cluster_status
      = (List.range k).map (cur_power_entry env) ++ List.replicate (n - k) zero_status := by
  induction k with
  | zero => simp
  | succ k ih =>
    have hk1 : k ≤ n := Nat.le_of_succ_le hk
    rw [List.range_succ, List.foldl_append, List.foldl_cons, List.foldl_nil,
      cur_power_body_status, ih hk1]
    have hsplit : n - k = (n - (k + 1)) + 1 := by omega
    rw [hsplit, List.replicate_succ, List.set_append]
    simp

/-- The statuses handed to the combiner: one entry per cluster, in cluster
order. -/
theorem cur_power_statuses_eq (env : ppm_env) :
    cur_power_statuses env = (List.range env.cluster_num).map (cur_power_entry env) := by
  unfold cur_power_statuses cur_power_loop
  rw [cur_power_fold_status env env.cluster_num env.cluster_num (le_refl _)]
  simp

/-- The value returned, by cases on the allocation and on the combiner. -/
theorem cur_power_cases (env : ppm_env) :
    mt_ppm_thermal_get_cur_power env =
      if env.kcalloc_ok = false ∨ env.ppm_find_pwr_idx (cur_power_statuses env) = -1 then
        mt_ppm_thermal_get_max_power env.ppm_get_power_table
      else some (to_uint (env.ppm_find_pwr_idx (cur_power_statuses env))) := by
  unfold mt_ppm_thermal_get_cur_power mt_ppm_thermal_get_cur_power_run cur_power_statuses
  cases hk : env.kcalloc_ok
  · simp
  · by_cases hp : env.ppm_find_pwr_idx
        (cur_power_loop env [ppm_event.kcalloc env.cluster_num]).cluster_status = -1
    · simp [hp]
    · simp [hp]

/-- C4, as stated, fails: with the table of powers 100 and 50 and a combiner
that answers 0, `mt_ppm_thermal_get_cur_power` returns 0, below the minimum
power 50. -/
theorem cur_power_out_of_range :
    table_wf (env_const 0).ppm_get_power_table ∧
    0 < (env_const 0).ppm_get_power_table.nr_power_tbl ∧
    strictly_descending (env_const 0).ppm_get_power_table ∧
    mt_ppm_thermal_get_cur_power (env_const 0) = some 0 ∧
    mt_ppm_thermal_get_min_power (env_const 0).ppm_get_power_table = some 50 ∧
    mt_ppm_thermal_get_max_power (env_const 0).ppm_get_power_table = some 100 ∧
    ¬ (50 ≤ 0 ∧ 0 ≤ 100) := by
  decide

/-- C4, amended: for a non-empty, strictly descending table, the result of
`mt_ppm_thermal_get_cur_power` lies between the minimum and the maximum power
whenever the combiner, if it is consulted, answers -1 or the power of a table
entry. -/
theorem cur_power_in_range (env : ppm_env)
    (hwf : table_wf env.ppm_get_power_table)
    (hne : 0 < env.ppm_get_power_table.nr_power_tbl)
    (hd : strictly_descending env.ppm_get_power_table)
    (hcomb : env.kcalloc_ok = true →
      env.ppm_find_pwr_idx (cur_power_statuses env) = -1 ∨
      ∃ e ∈ env.ppm_get_power_table.power_tbl,
        e.power_idx = to_uint (env.ppm_find_pwr_idx (cur_power_statuses env))) :
    ∃ r mn mx, mt_ppm_thermal_get_cur_power env = some r ∧
      mt_ppm_thermal_get_min_power env.ppm_get_power_table = some mn ∧
      mt_ppm_thermal_get_max_power env.ppm_get_power_table = some mx ∧
      mn ≤ r ∧ r ≤ mx := by
  obtain ⟨mn, mx, hmn, hmx, hall, -⟩ := table_bounds _ hwf hne hd
  obtain ⟨first, -, hh, -, -, -, -, -, hmax, -⟩ := table_lookup _ hwf hne
  have hfirst : first ∈ env.ppm_get_power_table.power_tbl := List.mem_of_mem_head? hh
  have hmxeq : first.power_idx = mx := by
    rw [hmax] at hmx; exact Option.some.inj hmx
  have hmaxin : mn ≤ mx ∧ mx ≤ mx := by
    have := hall first hfirst
    rw [hmxeq] at this
    exact this
  rw [cur_power_cases]
  by_cases hc : env.kcalloc_ok = false ∨ env.ppm_find_pwr_idx (cur_power_statuses env) = -1
  · rw [if_pos hc]
    exact ⟨mx, mn, mx, hmx, hmn, hmx, hmaxin.1, hmaxin.2⟩
  · rw [if_neg hc]
    have hok : env.kcalloc_ok = true := by
      cases hk : env.kcalloc_ok
      · exact absurd (Or.inl hk) hc
      · rfl
    rcases hcomb hok with h1 | ⟨e, he, hpe⟩
    · exact absurd (Or.inr h1) hc
    · have := hall e he
      rw [hpe] at this
      exact ⟨_, mn, mx, rfl, hmn, hmx, this.1, this.2⟩

/-- Witness of the amended C4: the combiner answers 50, the power of the second
table entry. -/
theorem cur_power_in_range_witness :
    ∃ r mn mx, mt_ppm_thermal_get_cur_power (env_const 50) = some r ∧
      mt_ppm_thermal_get_min_power (env_const 50).ppm_get_power_table = some mn ∧
      mt_ppm_thermal_get_max_power (env_const 50).ppm_get_power_table = some mx ∧
      mn ≤ r ∧ r ≤ mx :=
  cur_power_in_range (env_const 50) (by decide) (by decide) (by decide)
    (fun _ => Or.inr ⟨{ index := 1, power_idx := 50 }, by decide, by decide⟩)

/-- C5: when the combiner answers -1 for the statuses of the cluster state,
`mt_ppm_thermal_get_cur_power` returns what `mt_ppm_thermal_get_max_power`
returns: the power of the first table entry, a defined value whenever the
table has a first entry, and a nonzero one unless that power is itself 0. -/
theorem cur_power_combiner_not_found (env : ppm_env)
    (h : env.ppm_find_pwr_idx (cur_power_statuses env) = -1) :
    mt_ppm_thermal_get_cur_power env
      = mt_ppm_thermal_get_max_power env.ppm_get_power_table ∧
    (∀ first, env.ppm_get_power_table.power_tbl[0]? = some first →
      mt_ppm_thermal_get_cur_power env = some first.power_idx ∧
      mt_ppm_thermal_get_cur_power env ≠ none ∧
      (first.power_idx ≠ 0 → mt_ppm_thermal_get_cur_power env ≠ some 0)) := by
  have hmax : mt_ppm_thermal_get_cur_power env
      = mt_ppm_thermal_get_max_power env.ppm_get_power_table := by
    rw [cur_power_cases, if_pos (Or.inr h)]
  refine ⟨hmax, ?_⟩
  intro first hfirst
  have hval : mt_ppm_thermal_get_cur_power env = some first.power_idx := by
    rw [hmax]; simp [mt_ppm_thermal_get_max_power, hfirst]
  refine ⟨hval, ?_, ?_⟩
  · rw [hval]; exact Option.some_ne_none _
  · intro hnz hz
    rw [hval] at hz
    exact hnz (Option.some.inj hz)

/-- Witness of C5: the combiner answers -1 and the result is 100, the power of
the first table entry. -/
theorem cur_power_combiner_not_found_witness :
    (env_const (-1)).ppm_find_pwr_idx (cur_power_statuses (env_const (-1))) = -1 ∧
    mt_ppm_thermal_get_cur_power (env_const (-1)) = some 100 :=
  ⟨by decide,
   ((cur_power_combiner_not_found (env_const (-1)) (by decide)).2
      { index := 0, power_idx := 100 } (by decide)).1⟩

/-- C6, as stated, fails: cluster 0 is online, the resolver answers -1 for it,
the combiner answers 50, and `mt_ppm_thermal_get_cur_power` returns 50 while
the maximum power is 100. -/
theorem cur_power_resolver_not_found_passes_on :
    online_core_num env_resolver_fail 0 ≠ 0 ∧
    env_resolver_fail.ppm_main_freq_to_idx 0
      (env_resolver_fail.mt_cpufreq_get_cur_phy_freq 0) CPUFREQ_RELATION_L = -1 ∧
    mt_ppm_thermal_get_cur_power env_resolver_fail = some 50 ∧
    mt_ppm_thermal_get_max_power env_resolver_fail.ppm_get_power_table = some 100 ∧
    mt_ppm_thermal_get_cur_power env_resolver_fail
      ≠ mt_ppm_thermal_get_max_power env_resolver_fail.ppm_get_power_table := by
  decide

/-- C6, amended: when the resolver answers -1 for an online cluster `i`, the
status of that cluster goes to the combiner with `freq_idx = -1`;
`mt_ppm_thermal_get_cur_power` returns the maximum power if the combiner then
answers -1, and the combiner's value converted to `unsigned int` if the buffer
was allocated and the combiner answers something else. -/
theorem cur_power_resolver_not_found (env : ppm_env) (i : Nat)
    (hi : i < env.cluster_num) (hon : online_core_num env i ≠ 0)
    (hres : env.ppm_main_freq_to_idx i (env.mt_cpufreq_get_cur_phy_freq i)
      CPUFREQ_RELATION_L = -1) :
    (cur_power_statuses env)[i]?
      = some { core_num := online_core_num env i, freq_idx := -1, volt := 0 } ∧
    (env.ppm_find_pwr_idx (cur_power_statuses env) = -1 →
      mt_ppm_thermal_get_cur_power env
        = mt_ppm_thermal_get_max_power env.ppm_get_power_table) ∧
    (env.kcalloc_ok = true → env.ppm_find_pwr_idx (cur_power_statuses env) ≠ -1 →
      mt_ppm_thermal_get_cur_power env
        = some (to_uint (env.ppm_find_pwr_idx (cur_power_statuses env)))) := by
  refine ⟨?_, ?_, ?_⟩
  · rw [cur_power_statuses_eq]
    simp [hi, cur_power_entry, hon, hres]
  · intro h
    rw [cur_power_cases, if_pos (Or.inr h)]
  · intro hk hp
    rw [cur_power_cases, if_neg]
    simp [hk, hp]

/-- Witness of the amended C6: the resolver answers -1 for the online cluster 0
and the combiner's 50 is returned. -/
theorem cur_power_resolver_not_found_witness :
    (cur_power_statuses env_resolver_fail)[0]?
      = some { core_num := 1, freq_idx := -1, volt := 0 } ∧
    mt_ppm_thermal_get_cur_power env_resolver_fail = some 50 :=
  ⟨(cur_power_resolver_not_found env_resolver_fail 0 (by decide) (by decide) (by decide)).1,
   (cur_power_resolver_not_found env_resolver_fail 0 (by decide) (by decide)
      (by decide)).2.2 (by decide) (by decide)⟩

/-- C7: when `kcalloc` returns no buffer, `mt_ppm_thermal_get_cur_power`
returns what `mt_ppm_thermal_get_max_power` returns; the only call it has
issued is the `kcalloc`, so neither `ppm_main_freq_to_idx` nor
`ppm_find_pwr_idx` was consulted, and the result is the same for every
resolver, combiner and CPU state. -/
theorem cur_power_alloc_failure (env : ppm_env) (h : env.kcalloc_ok = false) :
    mt_ppm_thermal_get_cur_power env
      = mt_ppm_thermal_get_max_power env.ppm_get_power_table ∧
    (mt_ppm_thermal_get_cur_power_run env).2 = [ppm_event.kcalloc env.cluster_num] ∧
    (∀ c f r, ppm_event.freq_to_idx c f r ∉ (mt_ppm_thermal_get_cur_power_run env).2) ∧
    (∀ st, ppm_event.find_pwr_idx st ∉ (mt_ppm_thermal_get_cur_power_run env).2) ∧
    (∀ env2 : ppm_env, env2.ppm_get_power_table = env.ppm_get_power_table →
      env2.kcalloc_ok = false →
      mt_ppm_thermal_get_cur_power env2 = mt_ppm_thermal_get_cur_power env) ∧
    (∀ first, env.ppm_get_power_table.power_tbl[0]? = some first →
      mt_ppm_thermal_get_cur_power env = some first.power_idx) := by
  have hrun : mt_ppm_thermal_get_cur_power_run env
      = (mt_ppm_thermal_get_max_power env.ppm_get_power_table,
          [ppm_event.kcalloc env.cluster_num]) := by
    simp [mt_ppm_thermal_get_cur_power_run, h]
  have hval : mt_ppm_thermal_get_cur_power env
      = mt_ppm_thermal_get_max_power env.ppm_get_power_table := by
    rw [cur_power_cases, if_pos (Or.inl h)]
  refine ⟨hval, ?_, ?_, ?_, ?_, ?_⟩
  · rw [hrun]
  · intro c f r; rw [hrun]; simp
  · intro st; rw [hrun]; simp
  · intro env2 ht hk
    rw [hval, cur_power_cases, if_pos (Or.inl hk), ht]
  · intro first hfirst
    rw [hval]; simp [mt_ppm_thermal_get_max_power, hfirst]

/-- Witness of C7: no buffer, the result is 100 and the trace is the `kcalloc`
alone. -/
theorem cur_power_alloc_failure_witness :
    env_alloc_fail.kcalloc_ok = false ∧
    mt_ppm_thermal_get_cur_power env_alloc_fail = some 100 ∧
    (mt_ppm_thermal_get_cur_power_run env_alloc_fail).2 = [ppm_event.kcalloc 2] :=
  ⟨by decide,
   (cur_power_alloc_failure env_alloc_fail (by decide)).2.2.2.2.2
      { index := 0, power_idx := 100 } (by decide),
   (cur_power_alloc_failure env_alloc_fail (by decide)).2.1⟩

/-- When every cluster is offline each status is `core_num = 0`,
`freq_idx = -1`. -/
theorem cur_power_statuses_offline (env : ppm_env)
    (hoff : ∀ i, i < env.cluster_num → online_core_num env i = 0) :
    cur_power_statuses env
      = List.replicate env.cluster_num { core_num := 0, freq_idx := -1, volt := 0 } := by
  rw [cur_power_statuses_eq]
  apply List.ext_getElem
  · simp
  · intro k h1 h2
    have hk : k < env.cluster_num := by simpa using h1
    simp [cur_power_entry, hoff k hk]

/-- C8: when every cluster is offline and the combiner is the modelled one,
`mt_ppm_thermal_get_cur_power` equals `mt_ppm_thermal_get_max_power`, for every
power table and every number of clusters. -/
theorem cur_power_all_offline (env : ppm_env) (lookup : List ppm_cluster_status → Int)
    (hcomb : env.ppm_find_pwr_idx = ppm_find_pwr_idx_model lookup)
    (hoff : ∀ i, i < env.cluster_num → online_core_num env i = 0) :
    mt_ppm_thermal_get_cur_power env
      = mt_ppm_thermal_get_max_power env.ppm_get_power_table := by
  have hst := cur_power_statuses_offline env hoff
  have hm1 : env.ppm_find_pwr_idx (cur_power_statuses env) = -1 := by
    rw [hcomb, hst]
    simp [ppm_find_pwr_idx_model]
  rw [cur_power_cases, if_pos (Or.inr hm1)]

/-- Witness of C8: two clusters, no CPU online, the result is the maximum. -/
theorem cur_power_all_offline_witness :
    (∀ i, i < env_all_offline.cluster_num → online_core_num env_all_offline i = 0) ∧
    mt_ppm_thermal_get_cur_power env_all_offline
      = mt_ppm_thermal_get_max_power env_all_offline.ppm_get_power_table :=
  ⟨by decide, cur_power_all_offline env_all_offline (fun _ => 50) rfl (by decide)⟩

/-! ## Activation and budget along sequences of operations -/

/-- SetBudget keeps the activation flag in step with the budget. -/
theorem protect_keeps_activation (B : Nat) (s : ppm_state)
    (h : activation_matches_budget s.thermal_policy) :
    activation_matches_budget (mt_ppm_cpu_thermal_protect B s).thermal_policy := by
  unfold activation_matches_budget at *
  cases he : s.thermal_policy.is_enabled
  · simpa [mt_ppm_cpu_thermal_protect, emit, he] using h
  · by_cases hB : B = 0 <;> simp [mt_ppm_cpu_thermal_protect, emit, he, hB]

/-- UpdateLimit with the modelled helpers writes the limits of the request
and nothing else of the policy. -/
theorem update_limit_model_policy
    (default_limit : Nat → List (Int × Int × Nat × Nat))
    (refine : Nat → Nat → List (Int × Int × Nat × Nat) → List (Int × Int × Nat × Nat))
    (new_state : Nat) (s : ppm_state) :
    (ppm_thermal_update_limit_cb (ppm_main_helpers_model default_limit refine)
        new_state s).thermal_policy
      = { s.thermal_policy with
          req := { s.thermal_policy.req with
            limit := refine new_state s.thermal_policy.req.power_budget
              (default_limit new_state) } } := by
  simp [ppm_thermal_update_limit_cb, emit, ppm_main_helpers_model,
    ppm_hica_set_default_limit_by_state_model, ppm_main_update_req_by_pwr_model]

/-- The policy after a write to `thermal_limit`: that of SetBudget when the
text was obtained and parsed, the policy as it was otherwise. -/
theorem proc_write_policy (kstrtouint : String → Nat → Option Nat)
    (buf : Option String) (count : Nat) (s : ppm_state) :
    (ppm_thermal_limit_proc_write kstrtouint buf count s).2.thermal_policy
      = match buf.bind (fun text => kstrtouint text 10) with
        | some v => (mt_ppm_cpu_thermal_protect v s).thermal_policy
        | none => s.thermal_policy := by
  cases buf with
  | none => simp [ppm_thermal_limit_proc_write, emit]
  | some text =>
    cases hk : kstrtouint text 10 with
    | none => simp [ppm_thermal_limit_proc_write, emit, hk]
    | some v =>
      cases he : s.thermal_policy.is_enabled <;>
        simp [ppm_thermal_limit_proc_write, emit, hk, mt_ppm_cpu_thermal_protect, he]

/-- Every operation keeps the activation flag in step with the budget. -/
theorem apply_op_keeps_activation
    (default_limit : Nat → List (Int × Int × Nat × Nat))
    (refine : Nat → Nat → List (Int × Int × Nat × Nat) → List (Int × Int × Nat × Nat))
    (kstrtouint : String → Nat → Option Nat) (op : thermal_op) (s : ppm_state)
    (h : activation_matches_budget s.thermal_policy) :
    activation_matches_budget
      (apply_op (ppm_main_helpers_model default_limit refine) kstrtouint op s).thermal_policy := by
  cases op with
  | set_budget B => exact protect_keeps_activation B s h
  | update_limit st =>
    simp only [apply_op, update_limit_model_policy]
    exact h
  | status_change e => exact h
  | mode_change m => exact h
  | proc_write buf count =>
    simp only [apply_op, proc_write_policy]
    cases hb : buf.bind (fun text => kstrtouint text 10) with
    | none => exact h
    | some v => exact protect_keeps_activation v s h
  | set_enabled e => exact h

/-- C11: in every state reached from the zero-initialised policy by a sequence
of SetBudget, UpdateLimit, StatusChange, ModeChange, diagnostic writes and
external settings of `is_enabled`, `is_activated` is true exactly when the
stored budget is nonzero; this holds whether the policy ends up enabled or
disabled. -/
theorem activation_iff_budget_nonzero
    (default_limit : Nat → List (Int × Int × Nat × Nat))
    (refine : Nat → Nat → List (Int × Int × Nat × Nat) → List (Int × Int × Nat × Nat))
    (kstrtouint : String → Nat → Option Nat) (policy_id prio : Nat)
    (ops : List thermal_op) :
    ((run_ops (ppm_main_helpers_model default_limit refine) kstrtouint ops
        (state_initial policy_id prio)).thermal_policy.is_activated = true
      ↔ (run_ops (ppm_main_helpers_model default_limit refine) kstrtouint ops
        (state_initial policy_id prio)).thermal_policy.req.power_budget ≠ 0) := by
  have hgen : ∀ (l : List thermal_op) (s : ppm_state),
      activation_matches_budget s.thermal_policy →
      activation_matches_budget
        (run_ops (ppm_main_helpers_model default_limit refine) kstrtouint l s).thermal_policy := by
    intro l
    induction l with
    | nil => intro s hs; exact hs
    | cons op rest ih =>
      intro s hs
      exact ih _ (apply_op_keeps_activation default_limit refine kstrtouint op s hs)
  have h0 : activation_matches_budget (state_initial policy_id prio).thermal_policy := by
    simp [activation_matches_budget, state_initial, thermal_policy_static]
  exact hgen ops _ h0

/-- C12: after SetBudget `B` on an enabled policy, UpdateLimit for any state
leaves a request whose budget is `B` and an activation flag equal to
`B != 0`. -/
theorem update_limit_keeps_budget
    (default_limit : Nat → List (Int × Int × Nat × Nat))
    (refine : Nat → Nat → List (Int × Int × Nat × Nat) → List (Int × Int × Nat × Nat))
    (B new_state : Nat) (s : ppm_state) (h : s.thermal_policy.is_enabled = true) :
    (ppm_thermal_update_limit_cb (ppm_main_helpers_model default_limit refine) new_state
        (mt_ppm_cpu_thermal_protect B s)).thermal_policy.req.power_budget = B ∧
    (ppm_thermal_update_limit_cb (ppm_main_helpers_model default_limit refine) new_state
        (mt_ppm_cpu_thermal_protect B s)).thermal_policy.is_activated = decide (B ≠ 0) := by
  rw [update_limit_model_policy]
  constructor
  · simp [mt_ppm_cpu_thermal_protect, emit, h]
  · by_cases hB : B = 0 <;> simp [mt_ppm_cpu_thermal_protect, emit, h, hB]

/-- Witness of C12: SetBudget 50, then UpdateLimit for state 3. -/
theorem update_limit_keeps_budget_witness :
    state_enabled.thermal_policy.is_enabled = true ∧
    (ppm_thermal_update_limit_cb helpers_example 3
        (mt_ppm_cpu_thermal_protect 50 state_enabled)).thermal_policy.req.power_budget = 50 ∧
    (ppm_thermal_update_limit_cb helpers_example 3
        (mt_ppm_cpu_thermal_protect 50 state_enabled)).thermal_policy.is_activated = true :=
  ⟨by decide,
   (update_limit_keeps_budget _ _ 50 3 state_enabled (by decide)).1,
   (update_limit_keeps_budget _ _ 50 3 state_enabled (by decide)).2⟩

/-- C14: with the modelled helpers, UpdateLimit for the same state applied
twice leaves the same policy (limits, budget, activation) as applied once. -/
theorem update_limit_idempotent
    (default_limit : Nat → List (Int × Int × Nat × Nat))
    (refine : Nat → Nat → List (Int × Int × Nat × Nat) → List (Int × Int × Nat × Nat))
    (new_state : Nat) (s : ppm_state) :
    (ppm_thermal_update_limit_cb (ppm_main_helpers_model default_limit refine) new_state
        (ppm_thermal_update_limit_cb (ppm_main_helpers_model default_limit refine)
          new_state s)).thermal_policy
      = (ppm_thermal_update_limit_cb (ppm_main_helpers_model default_limit refine)
          new_state s).thermal_policy := by
  rw [update_limit_model_policy, update_limit_model_policy]

/-- C15: `ppm_thermal_status_change_cb` and `ppm_thermal_mode_change_cb` leave
the whole policy record as it was and wake nobody, so a stored budget is the
same after the policy is disabled and enabled again, and after a mode
change. -/
theorem hooks_change_nothing (s : ppm_state) (enable : Bool) (mode : Nat) :
    (ppm_thermal_status_change_cb enable s).thermal_policy = s.thermal_policy ∧
    (ppm_thermal_mode_change_cb mode s).thermal_policy = s.thermal_policy ∧
    wakeups (ppm_thermal_status_change_cb enable s).trace = wakeups s.trace ∧
    wakeups (ppm_thermal_mode_change_cb mode s).trace = wakeups s.trace ∧
    (ppm_thermal_status_change_cb true (external_set_enabled true
        (ppm_thermal_status_change_cb false
          (external_set_enabled false s)))).thermal_policy.req
      = s.thermal_policy.req ∧
    (ppm_thermal_status_change_cb true (external_set_enabled true
        (ppm_thermal_status_change_cb false
          (external_set_enabled false s)))).thermal_policy.is_activated
      = s.thermal_policy.is_activated := by
  simp [ppm_thermal_status_change_cb, ppm_thermal_mode_change_cb, emit, wakeups,
    external_set_enabled, List.count_append]

/-- C16: `mt_ppm_cpu_thermal_protect` changes at most the stored budget and the
activation flag: the policy after the call is the policy before it with these
two members set, so `is_enabled`, the name, the policy id, the priority, the
callbacks and the per-cluster limits are as before. -/
theorem protect_frame (B : Nat) (s : ppm_state) :
    (∃ budget activated, (mt_ppm_cpu_thermal_protect B s).thermal_policy
      = { s.thermal_policy with
          is_activated := activated,
          req := { s.thermal_policy.req with power_budget := budget } }) ∧
    (mt_ppm_cpu_thermal_protect B s).thermal_policy.is_enabled
      = s.thermal_policy.is_enabled ∧
    (mt_ppm_cpu_thermal_protect B s).thermal_policy.name = s.thermal_policy.name ∧
    (mt_ppm_cpu_thermal_protect B s).thermal_policy.policy = s.thermal_policy.policy ∧
    (mt_ppm_cpu_thermal_protect B s).thermal_policy.priority = s.thermal_policy.priority ∧
    (mt_ppm_cpu_thermal_protect B s).thermal_policy.get_power_state_cb
      = s.thermal_policy.get_power_state_cb ∧
    (mt_ppm_cpu_thermal_protect B s).thermal_policy.update_limit_cb
      = s.thermal_policy.update_limit_cb ∧
    (mt_ppm_cpu_thermal_protect B s).thermal_policy.status_change_cb
      = s.thermal_policy.status_change_cb ∧
    (mt_ppm_cpu_thermal_protect B s).thermal_policy.mode_change_cb
      = s.thermal_policy.mode_change_cb ∧
    (mt_ppm_cpu_thermal_protect B s).thermal_policy.req.limit
      = s.thermal_policy.req.limit := by
  cases he : s.thermal_policy.is_enabled
  · refine ⟨⟨s.thermal_policy.req.power_budget, s.thermal_policy.is_activated, ?_⟩, ?_⟩
    · have hp : (mt_ppm_cpu_thermal_protect B s).thermal_policy = s.thermal_policy := by
        simp [mt_ppm_cpu_thermal_protect, emit, he]
      rw [hp]
    · simp [mt_ppm_cpu_thermal_protect, emit, he]
  · refine ⟨⟨B, decide (B ≠ 0), ?_⟩, ?_⟩
    · by_cases hB : B = 0 <;> simp [mt_ppm_cpu_thermal_protect, emit, he, hB]
    · simp [mt_ppm_cpu_thermal_protect, emit, he]

/-! ## The two-entry scenario -/

/-- C13: with the table of powers 100 and 50, cluster 0 online and resolved to
index 0, cluster 1 offline, and the modelled combiner,
`mt_ppm_thermal_get_cur_power` returns 100. -/
theorem cur_power_scenario (env : ppm_env) (combine : List Int → Int)
    (htbl : env.ppm_get_power_table = tbl_100_50) (hn : env.cluster_num = 2)
    (h0 : online_core_num env 0 ≠ 0)
    (hres : env.ppm_main_freq_to_idx 0 (env.mt_cpufreq_get_cur_phy_freq 0)
      CPUFREQ_RELATION_L = 0)
    (h1 : online_core_num env 1 = 0)
    (hcomb : env.ppm_find_pwr_idx = ppm_find_pwr_idx_spec tbl_100_50 combine) :
    mt_ppm_thermal_get_cur_power env = some 100 := by
  have hst : cur_power_statuses env
      = [{ core_num := online_core_num env 0, freq_idx := 0, volt := 0 },
         { core_num := 0, freq_idx := -1, volt := 0 }] := by
    rw [cur_power_statuses_eq, hn]
    simp [List.range_succ, cur_power_entry, h0, h1, hres]
  have hp : env.ppm_find_pwr_idx (cur_power_statuses env) = 100 := by
    have hb : (online_core_num env 0 != 0) = true := by simp [h0]
    rw [hcomb, hst]
    simp [ppm_find_pwr_idx_spec, ppm_find_pwr_idx_model, h0, hb, tbl_100_50, to_int,
      UINT_RANGE, List.filter, List.find?]
  rw [cur_power_cases, hp, htbl]
  cases hk : env.kcalloc_ok
  · simp [mt_ppm_thermal_get_max_power, tbl_100_50]
  · simp [to_uint, UINT_RANGE]

/-- Witness of C13: CPU 0 alone online, in cluster 0. -/
theorem cur_power_scenario_witness :
    mt_ppm_thermal_get_cur_power env_scenario = some 100 :=
  cur_power_scenario env_scenario (fun _ => 0) rfl rfl (by decide) (by decide) (by decide) rfl

/-! ## The diagnostic channel -/

/-- C17: a text written to `thermal_limit` that the parser reads as `v` has on
the policy and on the wake count the effect of `mt_ppm_cpu_thermal_protect v`;
a text the parser rejects is reported as invalid and leaves the policy and
the wake count as they were, as does a write whose text could not be
obtained. -/
theorem proc_write_parses_or_rejects (kstrtouint : String → Nat → Option Nat)
    (text : String) (count : Nat) (s : ppm_state) :
    (∀ v, kstrtouint text 10 = some v →
      (ppm_thermal_limit_proc_write kstrtouint (some text) count s).2.thermal_policy
        = (mt_ppm_cpu_thermal_protect v s).thermal_policy ∧
      wakeups (ppm_thermal_limit_proc_write kstrtouint (some text) count s).2.trace
        = wakeups (mt_ppm_cpu_thermal_protect v s).trace) ∧
    (kstrtouint text 10 = none →
      (ppm_thermal_limit_proc_write kstrtouint (some text) count s).2.thermal_policy
        = s.thermal_policy ∧
      wakeups (ppm_thermal_limit_proc_write kstrtouint (some text) count s).2.trace
        = wakeups s.trace ∧
      ppm_event.err_invalid_input
        ∈ (ppm_thermal_limit_proc_write kstrtouint (some text) count s).2.trace) ∧
    ((ppm_thermal_limit_proc_write kstrtouint none count s).2.thermal_policy
        = s.thermal_policy ∧
      wakeups (ppm_thermal_limit_proc_write kstrtouint none count s).2.trace
        = wakeups s.trace ∧
      (ppm_thermal_limit_proc_write kstrtouint none count s).1 = -EINVAL) := by
  refine ⟨?_, ?_, ?_⟩
  · intro v hv
    constructor
    · rw [proc_write_policy]; simp [hv]
    · cases he : s.thermal_policy.is_enabled <;>
        simp [ppm_thermal_limit_proc_write, hv, mt_ppm_cpu_thermal_protect, emit, wakeups,
          he, List.count_append]
  · intro hv
    refine ⟨?_, ?_, ?_⟩
    · rw [proc_write_policy]; simp [hv]
    · simp [ppm_thermal_limit_proc_write, hv, emit, wakeups, List.count_append]
    · simp [ppm_thermal_limit_proc_write, hv, emit]
  · simp [ppm_thermal_limit_proc_write, emit, wakeups, List.count_append]

/-- Witness of C17 with the modelled parser: "50" sets the budget 50, "abc"
and the out-of-range "4294967296" leave the disabled policy's budget 70 and
wake nobody. -/
theorem proc_write_parses_or_rejects_witness :
    kstrtouint_model "50" 10 = some 50 ∧
    (ppm_thermal_limit_proc_write kstrtouint_model (some "50") 2
        state_enabled).2.thermal_policy
      = (mt_ppm_cpu_thermal_protect 50 state_enabled).thermal_policy ∧
    kstrtouint_model "abc" 10 = none ∧
    (ppm_thermal_limit_proc_write kstrtouint_model (some "abc") 3
        state_enabled).2.thermal_policy = state_enabled.thermal_policy ∧
    kstrtouint_model "4294967296" 10 = none ∧
    wakeups (ppm_thermal_limit_proc_write kstrtouint_model (some "4294967296") 10
        state_enabled).2.trace = wakeups state_enabled.trace :=
  ⟨by decide,
   ((proc_write_parses_or_rejects kstrtouint_model "50" 2 state_enabled).1 50
      (by decide)).1,
   by decide,
   ((proc_write_parses_or_rejects kstrtouint_model "abc" 3 state_enabled).2.1
      (by decide)).1,
   by decide,
   ((proc_write_parses_or_rejects kstrtouint_model "4294967296" 10 state_enabled).2.1
      (by decide)).2.1⟩

/-- C18 at its three budgets, on an enabled policy and with the modelled
parser: the decimal text of 0 and of 1 reads back as 0 and 1 with flags 0 and
1, but with `tbl_uint_max`, whose greatest power is 4294967295, the decimal
text of that power reads back as "limited power = -1". -/
theorem limit_round_trip_at_uint_max :
    (ppm_thermal_limit_proc_show
        (ppm_thermal_limit_proc_write kstrtouint_model (some (toString (0 : Nat))) 1
          state_enabled).2.thermal_policy).2
      = "limited power = 0\nPPM thermal activate = 0\n" ∧
    (ppm_thermal_limit_proc_show
        (ppm_thermal_limit_proc_write kstrtouint_model (some (toString (1 : Nat))) 1
          state_enabled).2.thermal_policy).2
      = "limited power = 1\nPPM thermal activate = 1\n" ∧
    mt_ppm_thermal_get_max_power tbl_uint_max = some 4294967295 ∧
    (ppm_thermal_limit_proc_write kstrtouint_model (some (toString (4294967295 : Nat))) 10
        state_enabled).2.thermal_policy.req.power_budget = 4294967295 ∧
    (ppm_thermal_limit_proc_show
        (ppm_thermal_limit_proc_write kstrtouint_model
          (some (toString (4294967295 : Nat))) 10 state_enabled).2.thermal_policy).2
      = "limited power = -1\nPPM thermal activate = 1\n" := by
  decide

/-! ## Initialisation -/

/-- When every `proc_create` succeeds the loop creates all the entries. -/
theorem create_procfs_all (proc_create_ok : String → Bool) (names : List String)
    (st : ppm_init_state) (h : ∀ name ∈ names, proc_create_ok name = true) :
    create_procfs proc_create_ok names st
      = (true, { st with proc_entries := st.proc_entries ++ names,
                         trace := st.trace ++ names.map ppm_event.proc_create }) := by
  induction names generalizing st with
  | nil => simp [create_procfs]
  | cons name rest ih =>
    have hn : proc_create_ok name = true := h name (List.mem_cons_self _ _)
    have hr : ∀ n ∈ rest, proc_create_ok n = true :=
      fun n hn2 => h n (List.mem_cons_of_mem _ hn2)
    simp [create_procfs, hn, ih _ hr]

/-- C19, as stated, fails: both diagnostic entries are created, registration
then meets a full registry, and `ppm_thermal_policy_init` returns -22 with
the two entries still in place. -/
theorem init_failure_leaves_proc_entries :
    init_state_empty.proc_entries = [] ∧
    (ppm_thermal_policy_init (fun _ => true) (ppm_main_register_policy_model 0)
        (thermal_policy_static 0 0) init_state_empty).1 = -22 ∧
    (ppm_thermal_policy_init (fun _ => true) (ppm_main_register_policy_model 0)
        (thermal_policy_static 0 0) init_state_empty).2.policy_list = [] ∧
    (ppm_thermal_policy_init (fun _ => true) (ppm_main_register_policy_model 0)
        (thermal_policy_static 0 0) init_state_empty).2.proc_entries
      = ["thermal_limit", "thermal_cur_power"] := by
  decide

/-- C19, amended: when both diagnostic entries are created and the
registration then fails on a duplicate name or a full registry,
`ppm_thermal_policy_init` returns the nonzero `-EINVAL` and the policy list is
as before; the `thermal_limit` and `thermal_cur_power` entries it created
stay. -/
theorem init_registration_failure (proc_create_ok : String → Bool) (capacity : Nat)
    (policy : ppm_policy_data) (st : ppm_init_state)
    (hproc : ∀ name ∈ entries, proc_create_ok name = true)
    (hconflict : policy.name ∈ st.policy_list ∨ capacity ≤ st.policy_list.length) :
    (ppm_thermal_policy_init proc_create_ok (ppm_main_register_policy_model capacity)
        policy st).1 = -EINVAL ∧
    (ppm_thermal_policy_init proc_create_ok (ppm_main_register_policy_model capacity)
        policy st).1 ≠ 0 ∧
    (ppm_thermal_policy_init proc_create_ok (ppm_main_register_policy_model capacity)
        policy st).2.policy_list = st.policy_list ∧
    (ppm_thermal_policy_init proc_create_ok (ppm_main_register_policy_model capacity)
        policy st).2.proc_entries
      = st.proc_entries ++ ["thermal_limit", "thermal_cur_power"] := by
  have hreg : ppm_main_register_policy_model capacity policy st.policy_list
      = (-EINVAL, st.policy_list) := by
    simp [ppm_main_register_policy_model, hconflict]
  unfold ppm_thermal_policy_init
  rw [create_procfs_all proc_create_ok entries st hproc]
  simp [hreg, EINVAL, entries]

/-- Witness of the amended C19: a registry with no room. -/
theorem init_registration_failure_witness :
    (ppm_thermal_policy_init (fun _ => true) (ppm_main_register_policy_model 0)
        (thermal_policy_static 0 0) init_state_empty).1 = -EINVAL ∧
    (ppm_thermal_policy_init (fun _ => true) (ppm_main_register_policy_model 0)
        (thermal_policy_static 0 0) init_state_empty).2.proc_entries
      = init_state_empty.proc_entries ++ ["thermal_limit", "thermal_cur_power"] :=
  ⟨(init_registration_failure (fun _ => true) 0 (thermal_policy_static 0 0)
      init_state_empty (by decide) (by decide)).1,
   (init_registration_failure (fun _ => true) 0 (thermal_policy_static 0 0)
      init_state_empty (by decide) (by decide)).2.2.2⟩

/-! ## Two concurrent callers of SetBudget -/

/-- The invariant holds at the start on an enabled policy. -/
theorem conc_inv_init (a b : Nat) (p : ppm_policy_data) (h : p.is_enabled = true) :
    conc_inv a b (conc_init p) := by
  simp [conc_inv, conc_init, holds_lock, has_written, h]

set_option maxHeartbeats 4000000 in
/-- Every step of either caller keeps the invariant. -/
theorem conc_inv_step (a b : Nat) (c : conc_state) (tid : Bool) (h : conc_inv a b c) :
    conc_inv a b (conc_step a b c tid) := by
  obtain ⟨p, lk, w, pc0, pc1⟩ := c
  obtain ⟨hen, hl0, hl1, hd0, hd1, hb0, hb1, hw⟩ := h
  simp only at hen hl0 hl1 hd0 hd1 hb0 hb1 hw
  cases tid <;> cases pc0 <;> cases pc1 <;> cases lk <;>
    simp_all [conc_inv, conc_step, thread_step, get_pc, set_pc, holds_lock, has_written,
      one_full_write]

/-- One caller run alone, statement by statement, leaves the policy and issues
the wake-ups of `mt_ppm_cpu_thermal_protect`: the statement-level model and
the function agree. -/
theorem single_caller_is_protect (a b : Nat) (s : ppm_state) :
    (conc_run a b (List.replicate 7 false) (conc_init s.thermal_policy)).thermal_policy
      = (mt_ppm_cpu_thermal_protect a s).thermal_policy ∧
    (conc_run a b (List.replicate 7 false) (conc_init s.thermal_policy)).pc0
      = protect_pc.done ∧
    wakeups s.trace
        + (conc_run a b (List.replicate 7 false) (conc_init s.thermal_policy)).wakeups
      = wakeups (mt_ppm_cpu_thermal_protect a s).trace := by
  cases he : s.thermal_policy.is_enabled <;>
    simp [conc_run, conc_step, thread_step, get_pc, set_pc, conc_init, List.replicate,
      mt_ppm_cpu_thermal_protect, emit, wakeups, he, List.count_append]

/-- The invariant holds after every schedule. -/
theorem conc_inv_run (a b : Nat) (schedule : List Bool) (c : conc_state)
    (h : conc_inv a b c) : conc_inv a b (conc_run a b schedule c) := by
  induction schedule generalizing c with
  | nil => exact h
  | cons tid rest ih => exact ih _ (conc_inv_step a b c tid h)

/-- C20: two calls `mt_ppm_cpu_thermal_protect(a)` and
`mt_ppm_cpu_thermal_protect(b)` run at once on an enabled policy, statement by
statement under any schedule. Once both have returned the policy holds budget
`a` with the activation of `a` or budget `b` with the activation of `b`, never
a mix; and as long as one of them has not returned, one of them can move:
the two calls never block each other for good. -/
theorem concurrent_protect_linearizable (a b : Nat) (p : ppm_policy_data)
    (hen : p.is_enabled = true) (schedule : List Bool) :
    ((conc_run a b schedule (conc_init p)).pc0 = protect_pc.done ∧
      (conc_run a b schedule (conc_init p)).pc1 = protect_pc.done →
      ((conc_run a b schedule (conc_init p)).thermal_policy.req.power_budget = a ∧
        (conc_run a b schedule (conc_init p)).thermal_policy.is_activated = decide (a ≠ 0)) ∨
      ((conc_run a b schedule (conc_init p)).thermal_policy.req.power_budget = b ∧
        (conc_run a b schedule (conc_init p)).thermal_policy.is_activated
          = decide (b ≠ 0))) ∧
    (¬ ((conc_run a b schedule (conc_init p)).pc0 = protect_pc.done ∧
        (conc_run a b schedule (conc_init p)).pc1 = protect_pc.done) →
      (thread_step a false (conc_run a b schedule (conc_init p))).isSome = true ∨
      (thread_step b true (conc_run a b schedule (conc_init p))).isSome = true) := by
  have hinv := conc_inv_run a b schedule (conc_init p) (conc_inv_init a b p hen)
  generalize conc_run a b schedule (conc_init p) = c at hinv
  obtain ⟨q, lk, w, pc0, pc1⟩ := c
  obtain ⟨hq, hl0, hl1, -, -, -, -, hw⟩ := hinv
  simp only at hq hl0 hl1 hw
  constructor
  · rintro ⟨h0, h1⟩
    simp only at h0 h1
    subst h0 h1
    exact hw (Or.inl rfl) (by decide) (by decide)
  · intro hnd
    cases pc0 <;> cases pc1 <;> cases lk <;>
      simp_all [thread_step, get_pc, set_pc, holds_lock]

/-- Witness of C20: budgets 50 and 0 under an alternating schedule; both
callers return and the policy holds the full write of the second. -/
theorem concurrent_protect_linearizable_witness :
    state_enabled.thermal_policy.is_enabled = true ∧
    (conc_run 50 0 schedule_alternating (conc_init state_enabled.thermal_policy)).pc0
      = protect_pc.done ∧
    (conc_run 50 0 schedule_alternating (conc_init state_enabled.thermal_policy)).pc1
      = protect_pc.done ∧
    (((conc_run 50 0 schedule_alternating
          (conc_init state_enabled.thermal_policy)).thermal_policy.req.power_budget = 50 ∧
        (conc_run 50 0 schedule_alternating
          (conc_init state_enabled.thermal_policy)).thermal_policy.is_activated
          = decide (50 ≠ 0)) ∨
      ((conc_run 50 0 schedule_alternating
          (conc_init state_enabled.thermal_policy)).thermal_policy.req.power_budget = 0 ∧
        (conc_run 50 0 schedule_alternating
          (conc_init state_enabled.thermal_policy)).thermal_policy.is_activated
          = decide (0 ≠ 0))) :=
  ⟨by decide, by decide, by decide,
   (concurrent_protect_linearizable 50 0 state_enabled.thermal_policy (by decide)
      schedule_alternating).1 ⟨by decide, by decide⟩⟩

/-! ## The statuses handed to the combiner -/

/-- Each iteration adds the calls of `cur_power_events` to the trace. -/
theorem cur_power_body_trace (env : ppm_env) (st : cur_power_state) (i : Nat) :
    (cur_power_body env st i).trace = st.trace ++ cur_power_events env i := by
  unfold cur_power_body cur_power_events
  by_cases h : online_core_num env i = 0 <;> simp [h]

/-- The calls issued by the loop over a list of clusters. -/
theorem cur_power_fold_trace (env : ppm_env) (l : List Nat) (st : cur_power_state) :
    (l.foldl (cur_power_body env) st).trace
      = st.trace ++ l.flatMap (cur_power_events env) := by
  induction l generalizing st with
  | nil => simp
  | cons i rest ih =>
    rw [List.foldl_cons, ih, cur_power_body_trace]
    simp

/-- The whole trace of `mt_ppm_thermal_get_cur_power` when the buffer was
allocated. -/
theorem cur_power_run_trace (env : ppm_env) (h : env.kcalloc_ok = true) :
    (mt_ppm_thermal_get_cur_power_run env).2
      = [ppm_event.kcalloc env.cluster_num]
        ++ (List.range env.cluster_num).flatMap (cur_power_events env)
        ++ [ppm_event.find_pwr_idx (cur_power_statuses env), ppm_event.kfree] := by
  have htr : (cur_power_loop env [ppm_event.kcalloc env.cluster_num]).trace
      = [ppm_event.kcalloc env.cluster_num]
        ++ (List.range env.cluster_num).flatMap (cur_power_events env) := by
    unfold cur_power_loop
    rw [cur_power_fold_trace]
  unfold mt_ppm_thermal_get_cur_power_run cur_power_statuses
  by_cases hp : env.ppm_find_pwr_idx
      (cur_power_loop env [ppm_event.kcalloc env.cluster_num]).cluster_status = -1
  · simp [h, hp, htr]
  · simp [h, hp, htr]

/-- The resolver is called only for online clusters, with the cluster's own
current frequency and the low relation. -/
theorem freq_to_idx_in_events (env : ppm_env) (i c f r : Nat)
    (h : ppm_event.freq_to_idx c f r ∈ cur_power_events env i) :
    online_core_num env i ≠ 0 ∧ c = i ∧ f = env.mt_cpufreq_get_cur_phy_freq i ∧
      r = CPUFREQ_RELATION_L := by
  unfold cur_power_events at h
  by_cases h0 : online_core_num env i = 0
  · simp [h0] at h
  · simp [h0] at h
    exact ⟨h0, h.1, h.2.1, h.2.2⟩

/-- The search of `round_down_idx`, for any assignment `g` of frequencies to
indices: nothing found means no index below `n` qualifies, and an index found
is below `n`, qualifies, and has the greatest frequency of those that do. -/
theorem round_down_fold (g : Nat → Nat) (freq n : Nat) :
    ((List.range n).foldl
        (fun (best : Option Nat) i =>
          if g i ≤ freq then
            match best with
            | none => some i
            | some j => if g j < g i then some i else some j
          else best) none = none → ∀ i, i < n → ¬ g i ≤ freq) ∧
    (∀ k, (List.range n).foldl
        (fun (best : Option Nat) i =>
          if g i ≤ freq then
            match best with
            | none => some i
            | some j => if g j < g i then some i else some j
          else best) none = some k →
      k < n ∧ g k ≤ freq ∧ ∀ j, j < n → g j ≤ freq → g j ≤ g k) := by
  induction n with
  | zero => simp
  | succ n ih =>
    rw [List.range_succ, List.foldl_append, List.foldl_cons, List.foldl_nil]
    obtain ⟨ihn, ihs⟩ := ih
    cases hb : (List.range n).foldl
        (fun (best : Option Nat) i =>
          if g i ≤ freq then
            match best with
            | none => some i
            | some j => if g j < g i then some i else some j
          else best) none with
    | none =>
      have hno := ihn hb
      by_cases hg : g n ≤ freq
      · simp only [hg, if_true]
        refine ⟨by simp, ?_⟩
        intro k hk
        have hkn : n = k := by simpa using hk
        subst hkn
        refine ⟨Nat.lt_succ_self _, hg, ?_⟩
        intro j hj hjf
        rcases Nat.lt_succ_iff_lt_or_eq.mp hj with hlt | heq
        · exact absurd hjf (hno j hlt)
        · rw [heq]
      · simp only [hg, if_false]
        refine ⟨?_, by simp⟩
        intro _ i hi
        rcases Nat.lt_succ_iff_lt_or_eq.mp hi with hlt | heq
        · exact hno i hlt
        · rw [heq]; exact hg
    | some b =>
      obtain ⟨hbn, hbf, hbmax⟩ := ihs b hb
      by_cases hg : g n ≤ freq
      · by_cases hlt : g b < g n
        · simp only [hg, if_true, hlt]
          refine ⟨by simp, ?_⟩
          intro k hk
          have hkn : n = k := by simpa using hk
          subst hkn
          refine ⟨Nat.lt_succ_self _, hg, ?_⟩
          intro j hj hjf
          rcases Nat.lt_succ_iff_lt_or_eq.mp hj with hjl | heq
          · exact Nat.le_trans (hbmax j hjl hjf) (Nat.le_of_lt hlt)
          · rw [heq]
        · simp only [hg, if_true, hlt, if_false]
          refine ⟨by simp, ?_⟩
          intro k hk
          have hkb : b = k := by simpa using hk
          subst hkb
          refine ⟨Nat.lt_succ_of_lt hbn, hbf, ?_⟩
          intro j hj hjf
          rcases Nat.lt_succ_iff_lt_or_eq.mp hj with hjl | heq
          · exact hbmax j hjl hjf
          · rw [heq]; exact Nat.le_of_not_lt hlt
      · simp only [hg, if_false]
        refine ⟨by simp, ?_⟩
        intro k hk
        have hkb : b = k := by simpa using hk
        subst hkb
        refine ⟨Nat.lt_succ_of_lt hbn, hbf, ?_⟩
        intro j hj hjf
        rcases Nat.lt_succ_iff_lt_or_eq.mp hj with hjl | heq
        · exact hbmax j hjl hjf
        · rw [heq] at hjf; exact absurd hjf hg

/-- What `round_down_idx` answers: -1, or an index of the table whose
frequency is not above `freq` and is the greatest such. -/
theorem round_down_idx_spec (tbl : List Nat) (freq : Nat) :
    round_down_idx tbl freq = -1 ∨
    ∃ k : Nat, round_down_idx tbl freq = (k : Int) ∧ k < tbl.length ∧
      tbl.getD k 0 ≤ freq ∧
      ∀ j, j < tbl.length → tbl.getD j 0 ≤ freq → tbl.getD j 0 ≤ tbl.getD k 0 := by
  obtain ⟨-, hs⟩ := round_down_fold (fun i => tbl.getD i 0) freq tbl.length
  unfold round_down_idx
  cases hb : (List.range tbl.length).foldl
      (fun (best : Option Nat) i =>
        if tbl.getD i 0 ≤ freq then
          match best with
          | none => some i
          | some j => if tbl.getD j 0 < tbl.getD i 0 then some i else some j
        else best) none with
  | none => exact Or.inl rfl
  | some k => exact Or.inr ⟨k, rfl, hs k hb⟩

/-- C22: the array handed to `ppm_find_pwr_idx` has one status per cluster.
The status of cluster `i` has as `core_num` the number of online CPUs of the
cluster; when that is zero its `freq_idx` is -1 and the resolver is not
called for the cluster; otherwise its `freq_idx` is the resolver's answer for
the cluster's current frequency under `CPUFREQ_RELATION_L`, which with the
modelled resolver is -1 or the index of the greatest table frequency not
above the current one. -/
theorem cur_power_status_entries (env : ppm_env) :
    (cur_power_statuses env).length = env.cluster_num ∧
    (∀ i, i < env.cluster_num →
      (cur_power_statuses env)[i]?
        = some { core_num := online_core_num env i, volt := 0,
                 freq_idx :=
                   if online_core_num env i = 0 then -1
                   else env.ppm_main_freq_to_idx i (env.mt_cpufreq_get_cur_phy_freq i)
                     CPUFREQ_RELATION_L }) ∧
    (env.kcalloc_ok = true →
      ppm_event.find_pwr_idx (cur_power_statuses env)
        ∈ (mt_ppm_thermal_get_cur_power_run env).2) ∧
    (∀ i, online_core_num env i = 0 →
      ∀ f r, ppm_event.freq_to_idx i f r ∉ (mt_ppm_thermal_get_cur_power_run env).2) ∧
    (env.kcalloc_ok = true → ∀ i, i < env.cluster_num → online_core_num env i ≠ 0 →
      ppm_event.freq_to_idx i (env.mt_cpufreq_get_cur_phy_freq i) CPUFREQ_RELATION_L
        ∈ (mt_ppm_thermal_get_cur_power_run env).2) ∧
    (∀ dvfs_tbl other, env.ppm_main_freq_to_idx = ppm_main_freq_to_idx_model dvfs_tbl other →
      ∀ i, i < env.cluster_num → online_core_num env i ≠ 0 →
      ∀ e, (cur_power_statuses env)[i]? = some e →
        e.freq_idx = -1 ∨
        ∃ k : Nat, e.freq_idx = (k : Int) ∧ k < (dvfs_tbl i).length ∧
          (dvfs_tbl i).getD k 0 ≤ env.mt_cpufreq_get_cur_phy_freq i ∧
          ∀ j, j < (dvfs_tbl i).length →
            (dvfs_tbl i).getD j 0 ≤ env.mt_cpufreq_get_cur_phy_freq i →
            (dvfs_tbl i).getD j 0 ≤ (dvfs_tbl i).getD k 0) := by
  have hentry : ∀ i, i < env.cluster_num →
      (cur_power_statuses env)[i]? = some (cur_power_entry env i) := by
    intro i hi
    rw [cur_power_statuses_eq]
    simp [hi]
  refine ⟨?_, ?_, ?_, ?_, ?_, ?_⟩
  · rw [cur_power_statuses_eq]; simp
  · intro i hi
    rw [hentry i hi]
    rfl
  · intro hk
    rw [cur_power_run_trace env hk]
    simp
  · intro i hoff f r hmem
    cases hk : env.kcalloc_ok
    · simp [mt_ppm_thermal_get_cur_power_run, hk] at hmem
    · rw [cur_power_run_trace env hk] at hmem
      simp only [List.mem_append, List.mem_cons, List.mem_singleton, List.mem_flatMap,
        List.not_mem_nil, or_false, reduceCtorEq, false_or] at hmem
      obtain ⟨j, -, hj⟩ := hmem
      obtain ⟨hon, hij, -, -⟩ := freq_to_idx_in_events env j i f r hj
      rw [hij] at hoff
      exact hon hoff
  · intro hk i hi hon
    rw [cur_power_run_trace env hk]
    have hev : ppm_event.freq_to_idx i (env.mt_cpufreq_get_cur_phy_freq i) CPUFREQ_RELATION_L
        ∈ cur_power_events env i := by
      simp [cur_power_events, hon]
    have hflat := List.mem_flatMap_of_mem (List.mem_range.mpr hi) hev
    simp only [List.mem_append]
    exact Or.inl (Or.inr hflat)
  · intro dvfs_tbl other hres i hi hon e he
    rw [hentry i hi] at he
    have hfreq : e.freq_idx
        = round_down_idx (dvfs_tbl i) (env.mt_cpufreq_get_cur_phy_freq i) := by
      rw [← Option.some.inj he]
      simp [cur_power_entry, hon, hres, ppm_main_freq_to_idx_model]
    rw [hfreq]
    exact round_down_idx_spec _ _

/-- Witness of C22: cluster 0 runs one CPU at 1000000 kHz, between the table
frequencies 1200000 (index 1) and 900000 (index 2); its status carries index
2, the frequency below. -/
theorem cur_power_status_entries_witness :
    env_round_down.kcalloc_ok = true ∧
    (cur_power_statuses env_round_down)[0]?
      = some { core_num := 1, volt := 0, freq_idx := 2 } ∧
    (cur_power_statuses env_round_down)[1]?
      = some { core_num := 0, volt := 0, freq_idx := -1 } ∧
    ppm_event.find_pwr_idx (cur_power_statuses env_round_down)
      ∈ (mt_ppm_thermal_get_cur_power_run env_round_down).2 :=
  ⟨by decide,
   (cur_power_status_entries env_round_down).2.1 0 (by decide),
   (cur_power_status_entries env_round_down).2.1 1 (by decide),
   (cur_power_status_entries env_round_down).2.2.1 (by decide)⟩

/-! ## UpdateLimit step by step -/

/-- C21: `ppm_thermal_update_limit_cb` calls
`ppm_hica_set_default_limit_by_state` on the policy and then
`ppm_main_update_req_by_pwr` on the request of the policy so obtained, in
that order; the policy it leaves is the second helper's result on the first
helper's result, and besides its log line it issues no other call. -/
theorem update_limit_is_default_then_refine (h : ppm_main_helpers) (new_state : Nat)
    (s : ppm_state) :
    (ppm_thermal_update_limit_cb h new_state s).thermal_policy
      = { h.ppm_hica_set_default_limit_by_state new_state s.thermal_policy with
          req := h.ppm_main_update_req_by_pwr new_state
            (h.ppm_hica_set_default_limit_by_state new_state s.thermal_policy).req } ∧
    (ppm_thermal_update_limit_cb h new_state s).trace
      = s.trace ++ [ppm_event.ver_update_limit new_state,
          ppm_event.hica_set_default_limit_by_state new_state,
          ppm_event.main_update_req_by_pwr new_state] := by
  simp [ppm_thermal_update_limit_cb, emit]

/-- C23, as stated, fails: an execution of `ppm_thermal_update_limit_cb` that
reaches `ppm_main_update_req_by_pwr`, which reads the budget, without a
`ppm_lock` or `ppm_unlock` anywhere in its trace. -/
theorem update_limit_takes_no_lock :
    ppm_event.main_update_req_by_pwr 3
      ∈ (ppm_thermal_update_limit_cb helpers_example 3 state_enabled).trace ∧
    ppm_event.lock ∉ (ppm_thermal_update_limit_cb helpers_example 3 state_enabled).trace ∧
    ppm_event.unlock ∉ (ppm_thermal_update_limit_cb helpers_example 3 state_enabled).trace := by
  decide

/-- C23, amended: `ppm_thermal_update_limit_cb` itself neither takes nor
releases the policy lock: the numbers of `ppm_lock` and `ppm_unlock` calls in
the trace are the same after it as before it, for every helper pair, state and
starting trace. -/
theorem update_limit_leaves_lock_alone (h : ppm_main_helpers) (new_state : Nat)
    (s : ppm_state) :
    (ppm_thermal_update_limit_cb h new_state s).trace.count ppm_event.lock
      = s.trace.count ppm_event.lock ∧
    (ppm_thermal_update_limit_cb h new_state s).trace.count ppm_event.unlock
      = s.trace.count ppm_event.unlock := by
  simp [ppm_thermal_update_limit_cb, emit, List.count_append]

/-! ## Signed and unsigned readings -/

/-- The `unsigned int` conversion of a C `int`: itself when it is not negative,
2^32 more when it is. -/
theorem to_uint_of_int (p : Int) (hlo : -2147483648 ≤ p) (hhi : p < 2147483648) :
    (0 ≤ p → (to_uint p : Int) = p) ∧ (p < 0 → (to_uint p : Int) = 4294967296 + p) := by
  unfold to_uint UINT_RANGE
  constructor <;> intro h <;> omega

/-- The `%d` reading of an `unsigned int`: itself below 2^31, 2^32 less from
2^31 on. -/
theorem to_int_of_uint (B : Nat) (hB : B < UINT_RANGE) :
    (B < 2147483648 → to_int B = (B : Int)) ∧
    (2147483648 ≤ B → to_int B = (B : Int) - 4294967296) := by
  unfold UINT_RANGE at hB
  have hmod : B % 4294967296 = B := Nat.mod_eq_of_lt hB
  constructor
  · intro h
    simp [to_int, UINT_RANGE, hmod, h]
  · intro h
    have hn : ¬ B < 2147483648 := by omega
    simp [to_int, UINT_RANGE, hmod, hn]

/-- C24, as stated, fails in its "only if" half: with the table of powers 100
and 50, the buffer allocated and the combiner answering 100, which is not -1,
`mt_ppm_thermal_get_cur_power` returns 100, the very value
`mt_ppm_thermal_get_max_power` returns. -/
theorem cur_power_max_without_fallback :
    (env_const 100).kcalloc_ok = true ∧
    (env_const 100).ppm_find_pwr_idx (cur_power_statuses (env_const 100)) = 100 ∧
    (100 : Int) ≠ -1 ∧ (-2147483648 : Int) ≤ 100 ∧ (100 : Int) < 2147483648 ∧
    mt_ppm_thermal_get_cur_power (env_const 100) = some 100 ∧
    mt_ppm_thermal_get_max_power (env_const 100).ppm_get_power_table = some 100 ∧
    mt_ppm_thermal_get_cur_power (env_const 100)
      = mt_ppm_thermal_get_max_power (env_const 100).ppm_get_power_table := by
  decide

/-- C24, amended: when the buffer is allocated and `ppm_find_pwr_idx` answers
the C `int` `p`, `mt_ppm_thermal_get_cur_power` returns what
`mt_ppm_thermal_get_max_power` returns if `p = -1`, and otherwise returns `p`
converted to `unsigned int`, not clamped to the table: `p` itself when
`p >= 0`, `2^32 + p` when `p < -1`. For `p` other than -1 the result is the
maximum power only when that conversion is itself the maximum power. -/
theorem cur_power_of_combiner_value (env : ppm_env) (p : Int)
    (hk : env.kcalloc_ok = true)
    (hp : env.ppm_find_pwr_idx (cur_power_statuses env) = p)
    (hlo : -2147483648 ≤ p) (hhi : p < 2147483648) :
    (p = -1 → mt_ppm_thermal_get_cur_power env
      = mt_ppm_thermal_get_max_power env.ppm_get_power_table) ∧
    (p ≠ -1 → mt_ppm_thermal_get_cur_power env = some (to_uint p)) ∧
    (mt_ppm_thermal_get_cur_power env
      = if p = -1 then mt_ppm_thermal_get_max_power env.ppm_get_power_table
        else some (to_uint p)) ∧
    (0 ≤ p → mt_ppm_thermal_get_cur_power env = some p.toNat) ∧
    (p < -1 → mt_ppm_thermal_get_cur_power env = some (4294967296 + p).toNat) ∧
    (p ≠ -1 →
      (mt_ppm_thermal_get_cur_power env
          = mt_ppm_thermal_get_max_power env.ppm_get_power_table
        ↔ mt_ppm_thermal_get_max_power env.ppm_get_power_table = some (to_uint p))) := by
  have hcases : mt_ppm_thermal_get_cur_power env
      = if p = -1 then mt_ppm_thermal_get_max_power env.ppm_get_power_table
        else some (to_uint p) := by
    rw [cur_power_cases, hp]
    simp [hk]
  obtain ⟨hnn, hneg⟩ := to_uint_of_int p hlo hhi
  refine ⟨?_, ?_, hcases, ?_, ?_, ?_⟩
  rotate_right
  · intro h
    rw [hcases, if_neg h]
    exact eq_comm
  · intro h; rw [hcases, if_pos h]
  · intro h; rw [hcases, if_neg h]
  · intro h
    have hne : p ≠ -1 := by omega
    rw [hcases, if_neg hne]
    have := hnn h
    congr 1
    omega
  · intro h
    have hne : p ≠ -1 := by omega
    rw [hcases, if_neg hne]
    have := hneg (by omega)
    congr 1
    omega

/-- Witness of the amended C24: the combiner answers -2 and the result is
4294967294, far above the table maximum 100. -/
theorem cur_power_of_combiner_value_witness :
    (env_const (-2)).kcalloc_ok = true ∧
    mt_ppm_thermal_get_cur_power (env_const (-2)) = some (4294967296 + (-2 : Int)).toNat ∧
    mt_ppm_thermal_get_max_power (env_const (-2)).ppm_get_power_table = some 100 :=
  ⟨by decide,
   (cur_power_of_combiner_value (env_const (-2)) (-2) (by decide) (by decide) (by decide)
      (by decide)).2.2.2.2.1 (by decide),
   by decide⟩

/-- C25: `ppm_thermal_limit_proc_show` prints the stored `unsigned int` budget
`B` as a signed decimal: `B` itself for `B < 2^31`, `B - 2^32` for
`2^31 <= B < 2^32`, so what is read back is `B` only for `B < 2^31`; after a
write of `B` to an enabled policy the flag printed is 1 exactly when
`B != 0`. -/
theorem limit_show_signed (kstrtouint : String → Nat → Option Nat) (text : String)
    (count B : Nat) (s : ppm_state) (hB : B < UINT_RANGE)
    (hen : s.thermal_policy.is_enabled = true) (hparse : kstrtouint text 10 = some B) :
    (ppm_thermal_limit_proc_write kstrtouint (some text) count
        s).2.thermal_policy.req.power_budget = B ∧
    (ppm_thermal_limit_proc_show
        (ppm_thermal_limit_proc_write kstrtouint (some text) count s).2.thermal_policy).2
      = "limited power = " ++ toString (to_int B) ++ "\n"
        ++ "PPM thermal activate = " ++ toString (if B ≠ 0 then (1 : Int) else 0) ++ "\n" ∧
    (B < 2147483648 → to_int B = (B : Int)) ∧
    (2147483648 ≤ B → to_int B = (B : Int) - 4294967296 ∧ to_int B < 0) ∧
    (to_int B = (B : Int) ↔ B < 2147483648) := by
  obtain ⟨hsmall, hbig⟩ := to_int_of_uint B hB
  have hpol : (ppm_thermal_limit_proc_write kstrtouint (some text) count s).2.thermal_policy
      = (mt_ppm_cpu_thermal_protect B s).thermal_policy := by
    rw [proc_write_policy]; simp [hparse]
  have hbud : (mt_ppm_cpu_thermal_protect B s).thermal_policy.req.power_budget = B := by
    simp [mt_ppm_cpu_thermal_protect, emit, hen]
  have hact : (mt_ppm_cpu_thermal_protect B s).thermal_policy.is_activated
      = decide (B ≠ 0) := by
    by_cases h0 : B = 0 <;> simp [mt_ppm_cpu_thermal_protect, emit, hen, h0]
  refine ⟨by rw [hpol, hbud], ?_, hsmall, ?_, ?_⟩
  · rw [hpol]
    unfold ppm_thermal_limit_proc_show
    simp only [hbud, hact]
    by_cases h0 : B = 0 <;> simp [h0]
  · intro h
    have := hbig h
    unfold UINT_RANGE at hB
    exact ⟨this, by omega⟩
  · constructor
    · intro h
      by_contra hn
      have := hbig (by omega)
      omega
    · exact hsmall

/-- Witness of C25: the text "4294967295" written to an enabled policy reads
back as -1 with the flag 1. -/
theorem limit_show_signed_witness :
    (ppm_thermal_limit_proc_write kstrtouint_model (some "4294967295") 10
        state_enabled).2.thermal_policy.req.power_budget = 4294967295 ∧
    to_int 4294967295 = -1 ∧
    (ppm_thermal_limit_proc_show
        (ppm_thermal_limit_proc_write kstrtouint_model (some "4294967295") 10
          state_enabled).2.thermal_policy).2
      = "limited power = " ++ toString (to_int 4294967295) ++ "\n"
        ++ "PPM thermal activate = "
        ++ toString (if 4294967295 ≠ 0 then (1 : Int) else 0) ++ "\n" :=
  ⟨(limit_show_signed kstrtouint_model "4294967295" 10 4294967295 state_enabled
      (by decide) (by decide) (by decide)).1,
   by decide,
   (limit_show_signed kstrtouint_model "4294967295" 10 4294967295 state_enabled
      (by decide) (by decide) (by decide)).2.1⟩

end PpmThermal
